import Mathlib

/-!
Verification of the schema-adaptive record-synthesis engine of
`discord-to-simplex` (src/main.go).  The Go source is shallowly embedded:
pure row construction becomes Lean functions, the database transaction
becomes explicit state passing over a `TxState`, and the out-of-scope
collaborators (schema introspection, media encoding, filesystem, statement
execution outcomes) become an explicit `Env` of functions, so the theorems
quantify over their possible behaviours.

Line numbers in comments refer to src/main.go.  The file is organised as
definitions first, then theorems.
-/

set_option maxHeartbeats 1000000

namespace DiscordToSimplex

/-! ## Generic map helpers (Go `map[string]V` as association lists) -/

/-- Go `v, ok := m[k]` on a `map[string]V`: first-match association-list
lookup.  A Go map is observable only through lookup; it is modelled as an
association list in which earlier entries shadow later ones. -/
def mapLookup : List (String × α) → String → Option α
  | [], _ => none
  | (k', v) :: rest, k => if k = k' then some v else mapLookup rest k

/-- Go map assignment `m[k] = v`: the new binding shadows any previous one.
Prepending is lookup-equivalent to Go's in-place replacement. -/
def mapInsert (m : List (String × α)) (k : String) (v : α) : List (String × α) :=
  (k, v) :: m

/-! ## Chunk sizing and the chunking loop -/

/-- src/main.go 2318-2327 (`calculateChunkSize`): non-positive `maxParams`
falls back to the conservative limit 900, the quotient is clamped to at
least 1.  `maxParams` is a Go `int`, so it is modelled as `Int`; the column
count is a slice length, hence `Nat`. -/
def calculateChunkSize (numColumns : Nat) (maxParams : Int) : Nat :=
  let mp : Nat := if maxParams ≤ 0 then 900 else maxParams.toNat
  let chunkSize := mp / numColumns
  if chunkSize < 1 then 1 else chunkSize

/-- Fuel-driven worker for `chunks` (structural recursion, so that concrete
runs reduce definitionally); the fuel is always at least the list length, so
the fuel-exhausted branch is unreachable. -/
def chunksF (csize : Nat) : Nat → List α → List (List α)
  | _, [] => []
  | 0, x :: xs => [x :: xs]
  | fuel + 1, x :: xs => (x :: xs.take (csize - 1)) :: chunksF csize fuel (xs.drop (csize - 1))

/-- The chunking loop `for i := 0; i < len(xs); i += csize` shared by the bulk
insert functions (src/main.go 2345-2351, 2572-2578, 2794-2800, 2860-2866):
successive slices `xs[i:i+csize]`. -/
def chunks (csize : Nat) (xs : List α) : List (List α) :=
  chunksF csize xs.length xs

/-! ## Column values and JSON payloads -/

/-- A JSON value, modelling the `map[string]interface{}` payloads the Go code
builds and passes to `encoding/json.Marshal`.  Marshalling is modelled as the
tree itself: it is injective on these values, and no claim depends on the
byte-level serialization. -/
inductive Json where
  | null
  | bool (b : Bool)
  | num (n : Int)
  | str (s : String)
  | arr (elems : List Json)
  | obj (fields : List (String × Json))

/-- Field lookup on a JSON object (used to state properties of the built
payloads). -/
def Json.getField : Json → String → Option Json
  | .obj fields, k => mapLookup fields k
  | _, _ => none

/-- A SQL column value as bound by the Go code (`interface{}` arguments to
`tx.Exec`): NULL, integer, text, a byte string, a marshalled JSON payload
stored as a BLOB (`msg_body`), or one stored as TEXT (`item_content`,
`quoted_content`).  Byte strings are modelled by the Go string they were
converted from (the code only ever builds them via `[]byte(s)`). -/
inductive Value where
  | null
  | int (n : Int)
  | text (s : String)
  | bytes (b : String)
  | jsonBlob (j : Json)
  | jsonText (j : Json)

/-- Go `templateRow[col]` without comma-ok: a missing key yields the zero
value of `interface{}`, i.e. nil, i.e. SQL NULL. -/
def mapGet (m : List (String × Value)) (k : String) : Value :=
  (mapLookup m k).getD .null

/-- A row as it reaches one `tx.Exec`: the introspected columns zipped with
their values.  (The Go code passes an ordered value list plus the column-name
list; the zip carries both.) -/
def Row := List (String × Value)

/-- The value the merge loop gives one column (src/main.go 2530-2538 and its
copies): the override when the map contains the column, else the template row
value (Go zero-value lookup) when the template is non-empty, else NULL. -/
def mergeColumnValue (overrideFields templateRow : List (String × Value)) (col : String) : Value :=
  match mapLookup overrideFields col with
  | some v => v
  | none => if templateRow.length > 0 then mapGet templateRow col else .null

/-- The per-row merge loop shared by every insert function
(src/main.go 2528-2539, 2745-2755, 2813-2823, 2893-2903, 3006-3015,
3070-3079, 3108-3117): one value per introspected column. -/
def buildRowValues (overrideFields templateRow : List (String × Value)) (columns : List String) : List Value :=
  columns.map (mergeColumnValue overrideFields templateRow)

/-- Modelled from the spec's words (§4.4, claim C1), for comparison with
`mergeColumnValue`: the row value is "the override value if the synthesizer
has an explicit opinion for that column, else the template's value for that
column if a template exists and contains it, else null". -/
def specColumnValue (overrideFields templateRow : List (String × Value)) (col : String) : Value :=
  match mapLookup overrideFields col with
  | some v => v
  | none =>
    match (if templateRow.length > 0 then mapLookup templateRow col else none) with
    | some v => v
    | none => .null

/-- Extract `params.quote.msgRef.sent` from a msg_body payload (the
serialized quote's directionality flag). -/
def msgBodyQuoteSent (body : Json) : Option Json :=
  (((body.getField "params").bind (Json.getField · "quote")).bind
    (Json.getField · "msgRef")).bind (Json.getField · "sent")

/-! ## base64 (Go `base64.StdEncoding.EncodeToString`) -/

def base64Chars : List Char :=
  "ABCDEFGHIJKLMNOPQRSTUVWXYZabcdefghijklmnopqrstuvwxyz0123456789+/".toList

def b64char (n : Nat) : Char := base64Chars.getD n 'A'

/-- Standard base64 over a byte list, three bytes to four sextet characters,
`=`-padded. -/
def base64EncodeBytes : List Nat → String
  | [] => ""
  | [a] => String.mk [b64char (a / 4), b64char (a % 4 * 16), '=', '=']
  | [a, b] => String.mk [b64char (a / 4), b64char (a % 4 * 16 + b / 16), b64char (b % 16 * 4), '=']
  | a :: b :: c :: rest =>
    String.mk [b64char (a / 4), b64char (a % 4 * 16 + b / 16), b64char (b % 16 * 4 + c / 64),
      b64char (c % 64)] ++ base64EncodeBytes rest

/-- `base64.StdEncoding.EncodeToString([]byte(s))`. -/
def base64Encode (s : String) : String :=
  base64EncodeBytes (s.toUTF8.toList.map (·.toNat))

/-! ## The normalized message model (src/main.go 1582-1732)

Timestamps are modelled opaquely: the Go code only ever formats a parsed
`time.Time` back to a string, and no claim depends on the textual format, so
a message carries a single timestamp string used wherever the code formats
its `Timestamp`.  Fields never read by the record-synthesis engine
(author, mentions, platform data, ...) are omitted. -/

structure UniversalAttachment where
  id : String
  filename : String
  url : String
  size : Int

structure QuotedMessage where
  sharedMsgID : String
  sentAt : String
  content : String
  isSent : Bool

structure UniversalReaction where
  emoji : String
  count : Int
  userIDs : List String

structure UniversalMessage where
  id : String
  content : String
  timestamp : String
  messageType : String
  attachments : List UniversalAttachment
  reactions : List UniversalReaction
  replyToID : Option String
  quotedMessage : Option QuotedMessage
  isSent : Bool

/-- src/main.go 1716-1721. -/
structure MessageInsertData where
  messageID : Int
  chatItemID : Int
  sharedMsgID : String
  message : UniversalMessage

/-- src/main.go 1723-1732 (only the field the insert functions read). -/
structure BulkInsertData where
  messages : List MessageInsertData

/-! ## The database transaction model -/

/-- The contents of the target tables the engine writes. -/
structure Tables where
  messages : List Row
  chatItems : List Row
  chatItemMessages : List Row
  msgDeliveries : List Row
  files : List Row
  sndFiles : List Row
  rcvFiles : List Row
  chatItemReactions : List Row

/-- One observable database interaction: a read (`QueryRow`, tagged by what is
read) or one `tx.Exec` of an INSERT into the named table. -/
inductive Event where
  | query (tag : String)
  | exec (table : String)
deriving DecidableEq

/-- The open transaction: the (uncommitted) table contents, the trace of
database interactions, and a counter numbering the `tx.Exec` calls. -/
structure TxState where
  tables : Tables
  trace : List Event
  execCount : Nat

/-- The out-of-scope collaborators and database-level nondeterminism: schema
introspection results, the media materializers (`encodeImageToBase64`,
`generateVideoThumbnail`), the filesystem checks of `insertFileAttachment`,
which `tx.Exec` calls fail (constraint violations and the like, numbered by
`TxState.execCount`), whether the final `tx.Commit` fails, and the wall
clock.  The model is parametric in all of them. -/
structure Env where
  schema : String → List String
  encodeImage : String → Except String String
  videoThumb : String → Except String (String × Int)
  fileExists : String → Bool
  copyOk : String → Bool
  execFails : Nat → Bool
  commitFails : Bool
  now : String

/-- `filepath.Join` as used on the attachment-relative paths. -/
def pathJoin (a b : String) : String := a ++ "/" ++ b

def Tables.get (t : Tables) : String → List Row := fun n =>
  if n = "messages" then t.messages
  else if n = "chat_items" then t.chatItems
  else if n = "chat_item_messages" then t.chatItemMessages
  else if n = "msg_deliveries" then t.msgDeliveries
  else if n = "files" then t.files
  else if n = "snd_files" then t.sndFiles
  else if n = "rcv_files" then t.rcvFiles
  else if n = "chat_item_reactions" then t.chatItemReactions
  else []

def Tables.append (t : Tables) (n : String) (rows : List Row) : Tables :=
  if n = "messages" then { t with messages := t.messages ++ rows }
  else if n = "chat_items" then { t with chatItems := t.chatItems ++ rows }
  else if n = "chat_item_messages" then { t with chatItemMessages := t.chatItemMessages ++ rows }
  else if n = "msg_deliveries" then { t with msgDeliveries := t.msgDeliveries ++ rows }
  else if n = "files" then { t with files := t.files ++ rows }
  else if n = "snd_files" then { t with sndFiles := t.sndFiles ++ rows }
  else if n = "rcv_files" then { t with rcvFiles := t.rcvFiles ++ rows }
  else if n = "chat_item_reactions" then { t with chatItemReactions := t.chatItemReactions ++ rows }
  else t

/-- The integer value of a column in a stored row, when it is an integer. -/
def colInt (r : Row) (col : String) : Option Int :=
  match mapLookup r col with
  | some (.int n) => some n
  | _ => none

/-- `SELECT MAX(col) FROM t`: SQL MAX over the integer values of `col`,
NULL (`none`) when the table has none. -/
def maxColOpt : List Row → String → Option Int
  | [], _ => none
  | r :: rest, col =>
    match colInt r col, maxColOpt rest col with
    | some n, some m => some (max n m)
    | some n, none => some n
    | none, o => o

/-- `SELECT COALESCE(MAX(col), 0) FROM t`. -/
def coalesceMax0 (rows : List Row) (col : String) : Int :=
  (maxColOpt rows col).getD 0

/-- Append a query event. -/
def TxState.logQuery (st : TxState) (tag : String) : TxState :=
  { st with trace := st.trace ++ [.query tag] }

/-- src/main.go 2275-2315 (`getTemplateRow`): select the row whose `idColumn`
equals `MAX(idColumn)`; an empty (or all-NULL) table yields the empty map.
The round-trips of one call are logged as a single `template` query event.
Database-level read errors are outside the model (every claim is about what
is written, not about read failures). -/
def getTemplateRowM (st : TxState) (table idColumn : String) : List (String × Value) × TxState :=
  let st := st.logQuery ("template " ++ table)
  match maxColOpt (st.tables.get table) idColumn with
  | none => ([], st)
  | some m =>
    match (st.tables.get table).find? (fun r =>
        match colInt r idColumn with
        | some n => n == m
        | none => false) with
    | some r => (r, st)
    | none => ([], st)

/-- One `tx.Exec` of an INSERT: logged and numbered; it either fails (as
chosen by `env.execFails`) leaving the table unchanged, or appends the rows.
(SQLite multi-row INSERT is atomic per statement.) -/
def execInsert (env : Env) (table : String) (rows : List Row) (st : TxState) :
    TxState × Except String Unit :=
  let st' := { st with trace := st.trace ++ [.exec table], execCount := st.execCount + 1 }
  if env.execFails st.execCount then
    (st', .error ("failed to execute " ++ table))
  else
    ({ st' with tables := st'.tables.append table rows }, .ok ())

/-- Execute one pre-built chunk of rows per `tx.Exec`, stopping at the first
failure (src/main.go 2545-2551 and its copies).  The Go loop builds each
chunk's rows just before executing it; row building is pure, so building all
rows first is observationally equal. -/
def execChunks (env : Env) (table : String) (chunked : List (List Row)) (st : TxState) :
    TxState × Except String Unit :=
  match chunked with
  | [] => (st, .ok ())
  | c :: cs =>
    match execInsert env table c st with
    | (st', .ok _) => execChunks env table cs st'
    | (st', .error e) => (st', .error e)

/-! ## bulkInsertMessages (src/main.go 2329-2555) -/

/-- The `file` info object attached to media payloads
(src/main.go 2388-2396, 2419-2427, 2435-2443, 2451-2459). -/
def fileInfoJson (attachment : UniversalAttachment) : Json :=
  .obj [("fileDescr", .obj [("fileDescrComplete", .bool false), ("fileDescrPartNo", .num 0),
          ("fileDescrText", .str "")]),
        ("fileName", .str attachment.filename),
        ("fileSize", .num attachment.size)]

/-- `content` and `fileInfo` construction of bulkInsertMessages
(src/main.go 2363-2467).  Only the first attachment is used; image-encoding
and thumbnail failures are logged and fall back (they do not abort). -/
def buildMessagesContent (env : Env) (jsonDir : String) (msg : UniversalMessage) :
    Json × Option Json :=
  match msg.attachments with
  | [] => (.obj [("text", .str msg.content), ("type", .str "text")], none)
  | attachment :: _ =>
    if msg.messageType = "image" then
      match env.encodeImage (pathJoin jsonDir attachment.url) with
      | .error _ =>
        (.obj [("text", .str ("[Image: " ++ attachment.filename ++ "]" ++
            (if msg.content ≠ "" then "\n" ++ msg.content else ""))),
          ("type", .str "text")], none)
      | .ok imageBase64 =>
        (.obj [("image", .str imageBase64), ("text", .str msg.content), ("type", .str "image")],
          some (fileInfoJson attachment))
    else if msg.messageType = "video" then
      match env.videoThumb (pathJoin jsonDir attachment.url) with
      | .error _ =>
        (.obj [("type", .str "file"), ("text", .str msg.content)], some (fileInfoJson attachment))
      | .ok (thumbnailBase64, duration) =>
        (.obj [("type", .str "video"), ("text", .str msg.content),
          ("image", .str thumbnailBase64), ("duration", .num duration)],
          some (fileInfoJson attachment))
    else
      -- "voice" and the default case build the same content and fileInfo
      (.obj [("text", .str msg.content), ("type", .str "file")], some (fileInfoJson attachment))

/-- The `quote` object of the msg_body params (src/main.go 2480-2493).  Note
that `"sent"` is hard-coded `false`; the commented-out line would have used
`msg.QuotedMessage.IsSent`. -/
def buildQuoteJson (q : QuotedMessage) : Json :=
  .obj [("content", .obj [("text", .str q.content), ("type", .str "text")]),
        ("msgRef", .obj [("msgId", .str (base64Encode q.sharedMsgID)),
          ("sent", .bool false),
          ("sentAt", .str q.sentAt)])]

/-- The msg_body payload (src/main.go 2469-2500). -/
def buildMsgBody (env : Env) (jsonDir : String) (msg : UniversalMessage) : Json :=
  let contentAndFile := buildMessagesContent env jsonDir msg
  let params : List (String × Json) :=
    [("content", contentAndFile.1)]
    ++ (match contentAndFile.2 with | some fi => [("file", fi)] | none => [])
    ++ (match msg.quotedMessage with | some q => [("quote", buildQuoteJson q)] | none => [])
  .obj [("v", .str "1-14"), ("msgId", .str (base64Encode msg.id)), ("event", .str "x.msg.new"),
    ("params", .obj params)]

/-- The messages-table override fields (src/main.go 2507-2526).
`json.Marshal` of the body cannot fail on these values, so the marshal-error
return (2502-2505) is dead and marshalling is modelled as total. -/
def messagesOverrideFields (env : Env) (jsonDir : String) (msgData : MessageInsertData) :
    List (String × Value) :=
  let msg := msgData.message
  let msgSent : Int := if msg.isSent then 1 else 0
  [("message_id", .int msgData.messageID),
   ("chat_msg_event", .text "x.msg.new"),
   ("shared_msg_id", .bytes msgData.sharedMsgID),
   ("msg_body", .jsonBlob (buildMsgBody env jsonDir msg)),
   ("msg_sent", .int msgSent),
   ("created_at", .text msg.timestamp),
   ("updated_at", .text msg.timestamp),
   ("shared_msg_id_user", if msg.isSent then .int 1 else .null)]

/-- src/main.go 2329-2555 (`bulkInsertMessages`): template row, introspected
columns, chunked multi-row INSERTs.  The `contactID` parameter of the Go
function is unused by it and omitted. -/
def bulkInsertMessagesM (env : Env) (jsonDir : String) (data : BulkInsertData) (st : TxState) :
    TxState × Except String Unit :=
  let tmplAndSt := getTemplateRowM st "messages" "message_id"
  let templateRow := tmplAndSt.1
  let st := tmplAndSt.2
  let columns := env.schema "messages"
  let chunkSize := calculateChunkSize columns.length 900
  let rows := data.messages.map (fun md =>
    columns.zip (buildRowValues (messagesOverrideFields env jsonDir md) templateRow columns))
  execChunks env "messages" (chunks chunkSize rows) st

/-! ## insertFileAttachment and the transfer tables (src/main.go 2921-3125) -/

/-- `filepath.Ext`: the suffix beginning at the final dot, empty if none. -/
def filepathExt (name : String) : String :=
  match (name.splitOn ".").reverse with
  | [] => ""
  | [_] => ""
  | ext :: _ => "." ++ ext

/-- Filename truncation of insertFileAttachment (src/main.go 2950-2955);
lengths are modelled in characters rather than Go bytes, which no claim
observes. -/
def truncateFilename (name : String) : String :=
  if name.length > 200 then
    let ext := filepathExt name
    (name.take (200 - ext.length)) ++ ext
  else name

/-- src/main.go 3043-3087 (`insertSndFile`). -/
def insertSndFileM (env : Env) (fileID : Int) (st : TxState) : TxState × Except String Unit :=
  let tmplAndSt := getTemplateRowM st "snd_files" "file_id"
  let templateRow := tmplAndSt.1
  let st := tmplAndSt.2
  let columns := env.schema "snd_files"
  let nextDeliveryID : Int :=
    coalesceMax0 st.tables.sndFiles "last_inline_msg_delivery_id" + 1
  let st := st.logQuery "nextkey snd_files last_inline_msg_delivery_id"
  let overrideFields : List (String × Value) :=
    [("file_id", .int fileID),
     ("connection_id", .int 1),
     ("file_status", .text "complete"),
     ("last_inline_msg_delivery_id", .int nextDeliveryID),
     ("created_at", .text env.now),
     ("updated_at", .text env.now)]
  execInsert env "snd_files" [columns.zip (buildRowValues overrideFields templateRow columns)] st

/-- src/main.go 3089-3125 (`insertRcvFile`). -/
def insertRcvFileM (env : Env) (fileID : Int) (st : TxState) : TxState × Except String Unit :=
  let tmplAndSt := getTemplateRowM st "rcv_files" "file_id"
  let templateRow := tmplAndSt.1
  let st := tmplAndSt.2
  let columns := env.schema "rcv_files"
  let overrideFields : List (String × Value) :=
    [("file_id", .int fileID),
     ("file_status", .text "complete"),
     ("user_approved_relays", .int 0),
     ("created_at", .text env.now),
     ("updated_at", .text env.now)]
  execInsert env "rcv_files" [columns.zip (buildRowValues overrideFields templateRow columns)] st

/-- The files-table override fields of insertFileAttachment
(src/main.go 2988-3004). -/
def filesOverrideFields (env : Env) (contactID : Int) (attachment : UniversalAttachment)
    (chatItemID : Int) (nextFileID : Int) (fileStatus protocol : String) :
    List (String × Value) :=
  let truncatedFilename := truncateFilename attachment.filename
  [("file_id", .int nextFileID),
   ("contact_id", .int contactID),
   ("file_name", .text truncatedFilename),
   ("file_path", .text truncatedFilename),
   ("file_size", .int attachment.size),
   ("chunk_size", .int 16384),
   ("user_id", .int 1),
   ("chat_item_id", .int chatItemID),
   ("ci_file_status", .text fileStatus),
   ("protocol", .text protocol),
   ("created_at", .text env.now),
   ("updated_at", .text env.now),
   ("file_crypto_key", .null),
   ("file_crypto_nonce", .null)]

/-- src/main.go 2922-3041 (`insertFileAttachment`): stat check, template row,
`MAX(file_id)+1` re-queried on every call, file copy, files-row INSERT, then
a snd_files/rcv_files transfer row for every protocol except `local`
(videos).  Effects performed before a failing step persist in the open
transaction, exactly as in the Go code. -/
def insertFileAttachmentM (env : Env) (jsonDir simplexFilesDir : String) (contactID : Int)
    (attachment : UniversalAttachment) (chatItemID : Int) (isSent : Bool) (messageType : String)
    (st : TxState) : TxState × Except String Int :=
  let filePath := pathJoin jsonDir attachment.url
  if ¬ env.fileExists filePath then
    (st, .error ("file not found: " ++ filePath))
  else
    let tmplAndSt := getTemplateRowM st "files" "file_id"
    let templateRow := tmplAndSt.1
    let st := tmplAndSt.2
    let nextFileID : Int := coalesceMax0 st.tables.files "file_id" + 1
    let st := st.logQuery "nextkey files file_id"
    let columns := env.schema "files"
    if ¬ env.copyOk filePath then
      (st, .error "failed to copy file to SimpleX directory")
    else
      let statusAndProtocol : String × String :=
        if messageType = "video" then ("snd_stored", "local")
        else if messageType = "image" ∨ messageType = "voice" then
          ((if isSent then "snd_complete" else "rcv_complete"), "xftp")
        else
          ((if isSent then "snd_complete" else "rcv_complete"), "smp")
      let overrideFields :=
        filesOverrideFields env contactID attachment chatItemID nextFileID
          statusAndProtocol.1 statusAndProtocol.2
      match execInsert env "files"
          [columns.zip (buildRowValues overrideFields templateRow columns)] st with
      | (st, .error e) => (st, .error ("failed to insert file: " ++ e))
      | (st, .ok _) =>
        if messageType ≠ "video" then
          match (if isSent then insertSndFileM env nextFileID st
                 else insertRcvFileM env nextFileID st) with
          | (st, .error e) => (st, .error ("failed to insert file transfer record: " ++ e))
          | (st, .ok _) => (st, .ok nextFileID)
        else
          (st, .ok nextFileID)

/-! ## bulkInsertChatItems (src/main.go 2557-2771) -/

/-- `msgContent` construction of bulkInsertChatItems (src/main.go 2609-2683).
Same failure-tolerant structure as `buildMessagesContent`, but here the video
fallback carries no separate fileInfo and voice uses plain file content. -/
def buildChatItemMsgContent (env : Env) (jsonDir : String) (msg : UniversalMessage) : Json :=
  match msg.attachments with
  | [] => .obj [("type", .str "text"), ("text", .str msg.content)]
  | attachment :: _ =>
    if msg.messageType = "image" then
      match env.encodeImage (pathJoin jsonDir attachment.url) with
      | .error _ =>
        .obj [("type", .str "text"),
          ("text", .str ("[Image: " ++ attachment.filename ++ "]" ++
            (if msg.content ≠ "" then "\n" ++ msg.content else "")))]
      | .ok imageBase64 =>
        .obj [("type", .str "image"), ("text", .str msg.content), ("image", .str imageBase64)]
    else if msg.messageType = "video" then
      match env.videoThumb (pathJoin jsonDir attachment.url) with
      | .error _ => .obj [("type", .str "file"), ("text", .str msg.content)]
      | .ok (thumbnailBase64, duration) =>
        .obj [("type", .str "video"), ("text", .str msg.content),
          ("image", .str thumbnailBase64), ("duration", .num duration)]
    else
      -- "voice" and the default case
      .obj [("type", .str "file"), ("text", .str msg.content)]

/-- The chat_items override fields (src/main.go 2596-2743), including the
quoted-message fields, which are explicitly NULLed when the message is not a
reply.  `json.Marshal` of `item_content`/`quoted_content` cannot fail on
these values, so those error returns (2691-2694, 2724-2727) are dead. -/
def chatItemsOverrideFields (env : Env) (jsonDir : String) (contactID : Int)
    (msgData : MessageInsertData) : List (String × Value) :=
  let msg := msgData.message
  let itemSent : Int := if msg.isSent then 1 else 0
  let itemContentTag : String := if msg.isSent then "sndMsgContent" else "rcvMsgContent"
  let itemStatus : String := if msg.isSent then "snd_rcvd ok complete" else "rcv_read"
  let itemContent : Json :=
    .obj [(itemContentTag, .obj [("msgContent", buildChatItemMsgContent env jsonDir msg)])]
  [("chat_item_id", .int msgData.chatItemID),
   ("user_id", .int 1),
   ("contact_id", .int contactID),
   ("created_by_msg_id", .int msgData.messageID),
   ("shared_msg_id", .bytes msgData.sharedMsgID),
   ("item_content", .jsonText itemContent),
   ("item_text", .text msg.content),
   ("item_content_tag", .text itemContentTag),
   ("item_sent", .int itemSent),
   ("item_status", .text itemStatus),
   ("item_deleted", .int 0),
   ("item_edited", .int 0),
   ("include_in_history", .int 1),
   ("user_mention", .int 0),
   ("show_group_as_sender", .int 0),
   ("item_ts", .text msg.timestamp),
   ("created_at", .text msg.timestamp),
   ("updated_at", .text msg.timestamp)]
  ++ (match msg.quotedMessage with
      | some q =>
        [("quoted_shared_msg_id", .bytes q.sharedMsgID),
         ("quoted_sent_at", .text q.sentAt),
         ("quoted_content", .jsonText (.obj [("type", .str "text"), ("text", .str q.content)])),
         ("quoted_sent", .int (if q.isSent then 1 else 0))]
      | none =>
        [("quoted_shared_msg_id", .null),
         ("quoted_sent_at", .null),
         ("quoted_content", .null),
         ("quoted_sent", .null)])

/-- One iteration of the chat_items row loop (src/main.go 2583-2758): for a
message with attachments, `insertFileAttachment` runs first and a failure is
only logged — synthesis continues without the file attachment, keeping
whatever rows the failed call already inserted in the open transaction. -/
def chatItemRowStep (env : Env) (jsonDir simplexFilesDir : String) (contactID : Int)
    (templateRow : List (String × Value)) (columns : List String)
    (msgData : MessageInsertData) (st : TxState) : TxState × Row :=
  let msg := msgData.message
  let st :=
    match msg.attachments with
    | [] => st
    | attachment :: _ =>
      (insertFileAttachmentM env jsonDir simplexFilesDir contactID attachment
        msgData.chatItemID msg.isSent msg.messageType st).1
  (st, columns.zip
    (buildRowValues (chatItemsOverrideFields env jsonDir contactID msgData) templateRow columns))

/-- Build the rows of one chat_items chunk, performing the interleaved
file-attachment inserts. -/
def chatItemsChunkRows (env : Env) (jsonDir simplexFilesDir : String) (contactID : Int)
    (templateRow : List (String × Value)) (columns : List String)
    (chunk : List MessageInsertData) (st : TxState) : TxState × List Row :=
  match chunk with
  | [] => (st, [])
  | md :: rest =>
    let stepped := chatItemRowStep env jsonDir simplexFilesDir contactID templateRow columns md st
    let next := chatItemsChunkRows env jsonDir simplexFilesDir contactID templateRow columns
      rest stepped.1
    (next.1, stepped.2 :: next.2)

/-- The chunk loop of bulkInsertChatItems (src/main.go 2572-2768): each
chunk's rows are built (with their file-attachment side effects) and then
executed as one multi-row INSERT. -/
def chatItemsChunkLoop (env : Env) (jsonDir simplexFilesDir : String) (contactID : Int)
    (templateRow : List (String × Value)) (columns : List String)
    (chunked : List (List MessageInsertData)) (st : TxState) : TxState × Except String Unit :=
  match chunked with
  | [] => (st, .ok ())
  | c :: cs =>
    let built := chatItemsChunkRows env jsonDir simplexFilesDir contactID templateRow columns c st
    match execInsert env "chat_items" built.2 built.1 with
    | (st', .ok _) =>
      chatItemsChunkLoop env jsonDir simplexFilesDir contactID templateRow columns cs st'
    | (st', .error e) => (st', .error e)

/-- src/main.go 2557-2771 (`bulkInsertChatItems`). -/
def bulkInsertChatItemsM (env : Env) (jsonDir : String) (contactID : Int)
    (simplexFilesDir : String) (data : BulkInsertData) (st : TxState) :
    TxState × Except String Unit :=
  let tmplAndSt := getTemplateRowM st "chat_items" "chat_item_id"
  let templateRow := tmplAndSt.1
  let st := tmplAndSt.2
  let columns := env.schema "chat_items"
  let chunkSize := calculateChunkSize columns.length 900
  chatItemsChunkLoop env jsonDir simplexFilesDir contactID templateRow columns
    (chunks chunkSize data.messages) st

/-! ## bulkInsertChatItemMessages (src/main.go 2773-2836) -/

/-- The link-table override fields (src/main.go 2806-2812); the rowid of the
message at global index `idx` is `nextRowID + idx` (`nextRowID + i + j` in the
chunked Go loop). -/
def chatItemMessagesOverrideFields (nextRowID : Int) (idx : Nat)
    (msgData : MessageInsertData) : List (String × Value) :=
  [("rowid", .int (nextRowID + idx)),
   ("chat_item_id", .int msgData.chatItemID),
   ("message_id", .int msgData.messageID),
   ("created_at", .text msgData.message.timestamp),
   ("updated_at", .text msgData.message.timestamp)]

/-- src/main.go 2773-2836 (`bulkInsertChatItemMessages`):
`COALESCE(MAX(rowid), 0) + 1` queried once, then incremented in memory. -/
def bulkInsertChatItemMessagesM (env : Env) (data : BulkInsertData) (st : TxState) :
    TxState × Except String Unit :=
  let tmplAndSt := getTemplateRowM st "chat_item_messages" "rowid"
  let templateRow := tmplAndSt.1
  let st := tmplAndSt.2
  let columns := env.schema "chat_item_messages"
  let nextRowID : Int := coalesceMax0 st.tables.chatItemMessages "rowid" + 1
  let st := st.logQuery "nextkey chat_item_messages rowid"
  let chunkSize := calculateChunkSize columns.length 900
  let rows := data.messages.enum.map (fun p =>
    columns.zip
      (buildRowValues (chatItemMessagesOverrideFields nextRowID p.1 p.2) templateRow columns))
  execChunks env "chat_item_messages" (chunks chunkSize rows) st

/-! ## bulkInsertMsgDeliveries (src/main.go 2838-2919) -/

/-- The delivery-table override fields (src/main.go 2874-2891).  Note that
`msg_delivery_id` is a copy of the allocated message id, not allocated from
`MAX(msg_delivery_id)`; `agent_msg_id` is `maxAgentMsgID + 1 + i + j`, i.e.
the batch-start maximum plus one plus the global index. -/
def msgDeliveriesOverrideFields (maxAgentMsgID : Int) (idx : Nat)
    (msgData : MessageInsertData) : List (String × Value) :=
  let msg := msgData.message
  let itemStatus : String := if msg.isSent then "snd_rcvd ok" else "rcv_read"
  [("msg_delivery_id", .int msgData.messageID),
   ("message_id", .int msgData.messageID),
   ("connection_id", .int 1),
   ("agent_msg_id", .int (maxAgentMsgID + 1 + idx)),
   ("agent_msg_meta", .null),
   ("delivery_status", .text itemStatus),
   ("chat_ts", .text msg.timestamp),
   ("created_at", .text msg.timestamp),
   ("updated_at", .text msg.timestamp)]

/-- src/main.go 2838-2919 (`bulkInsertMsgDeliveries`):
`MAX(agent_msg_id)` queried once per batch, then incremented in memory. -/
def bulkInsertMsgDeliveriesM (env : Env) (data : BulkInsertData) (st : TxState) :
    TxState × Except String Unit :=
  let tmplAndSt := getTemplateRowM st "msg_deliveries" "msg_delivery_id"
  let templateRow := tmplAndSt.1
  let st := tmplAndSt.2
  let columns := env.schema "msg_deliveries"
  let maxAgentMsgID : Int := coalesceMax0 st.tables.msgDeliveries "agent_msg_id"
  let st := st.logQuery "max msg_deliveries agent_msg_id"
  let chunkSize := calculateChunkSize columns.length 900
  let rows := data.messages.enum.map (fun p =>
    columns.zip
      (buildRowValues (msgDeliveriesOverrideFields maxAgentMsgID p.1 p.2) templateRow columns))
  execChunks env "msg_deliveries" (chunks chunkSize rows) st

/-! ## bulkInsertReactions (src/main.go 3127-3198) -/

/-- src/main.go 3127-3138 (`normalizeEmojiForSimpleX`): drop the variation
selectors U+FE0E and U+FE0F. -/
def normalizeEmojiForSimpleX (emoji : String) : String :=
  String.mk (emoji.toList.filter (fun r => r ≠ '\uFE0E' ∧ r ≠ '\uFE0F'))

/-- One reaction row (src/main.go 3153-3188), with the explicit column list of
the INSERT.  Whoever sent the message, `contact_id` is the contact; only
`reaction_sent` flips. -/
def reactionRow (contactID : Int) (reactionID : Int) (msgData : MessageInsertData)
    (reaction : UniversalReaction) : Row :=
  let msg := msgData.message
  let reactionJSON :=
    "\x7b\"type\":\"emoji\",\"emoji\":\"" ++ normalizeEmojiForSimpleX reaction.emoji ++ "\"\x7d"
  [("chat_item_reaction_id", .int reactionID),
   ("shared_msg_id", .bytes msgData.sharedMsgID),
   ("contact_id", .int contactID),
   ("created_by_msg_id", .null),
   ("reaction", .text reactionJSON),
   ("reaction_sent", .int (if msg.isSent then 0 else 1)),
   ("reaction_ts", .text msg.timestamp),
   ("created_at", .text msg.timestamp),
   ("updated_at", .text msg.timestamp)]

/-- The inner reaction loop of one message: one single-row `tx.Exec` per
reaction, counter incremented after each. -/
def reactionsOfMsg (env : Env) (contactID : Int) (msgData : MessageInsertData)
    (reactions : List UniversalReaction) (counter : Int) (st : TxState) :
    TxState × Int × Except String Unit :=
  match reactions with
  | [] => (st, counter, .ok ())
  | reaction :: rest =>
    match execInsert env "chat_item_reactions" [reactionRow contactID counter msgData reaction] st with
    | (st', .ok _) => reactionsOfMsg env contactID msgData rest (counter + 1) st'
    | (st', .error e) => (st', counter, .error ("failed to insert reaction: " ++ e))

/-- The outer message loop of bulkInsertReactions (src/main.go 3150-3196). -/
def reactionsLoop (env : Env) (contactID : Int) (msgs : List MessageInsertData)
    (counter : Int) (st : TxState) : TxState × Except String Unit :=
  match msgs with
  | [] => (st, .ok ())
  | md :: rest =>
    match reactionsOfMsg env contactID md md.message.reactions counter st with
    | (st', counter', .ok _) => reactionsLoop env contactID rest counter' st'
    | (st', _, .error e) => (st', .error e)

/-- src/main.go 3140-3198 (`bulkInsertReactions`):
`COALESCE(MAX(chat_item_reaction_id), 0) + 1` queried once, then the counter
is incremented in memory per inserted reaction. -/
def bulkInsertReactionsM (env : Env) (contactID : Int) (data : BulkInsertData) (st : TxState) :
    TxState × Except String Unit :=
  let nextReactionID : Int :=
    coalesceMax0 st.tables.chatItemReactions "chat_item_reaction_id" + 1
  let st := st.logQuery "nextkey chat_item_reactions chat_item_reaction_id"
  reactionsLoop env contactID data.messages nextReactionID st

/-! ## bulkInsertUniversalMessages (src/main.go 3201-3275) -/

/-- The id assignment of src/main.go 3224-3238: the message at batch index `i`
gets `message_id = startMessageID + i`, `chat_item_id = maxChatItemID + 1 + i`,
and `shared_msg_id = []byte(msg.ID)`. -/
def mkBulkData (messages : List UniversalMessage) (startMessageID maxChatItemID : Int) :
    BulkInsertData :=
  { messages := messages.enum.map (fun p =>
      { messageID := startMessageID + p.1
        chatItemID := maxChatItemID + 1 + p.1
        sharedMsgID := p.2.id
        message := p.2 }) }

/-- src/main.go 3201-3275 (`bulkInsertUniversalMessages`): one transaction per
batch; `MAX(chat_item_id)` read once at batch start; the six synthesis steps
run in program order, stopping at the first error; `tx.Commit` only after all
of them.  Returns the committed tables (or the error) together with the
transaction's event trace. -/
def bulkInsertUniversalMessagesM (env : Env) (db : Tables) (messages : List UniversalMessage)
    (startMessageID : Int) (jsonDir : String) (contactID : Int) (simplexFilesDir : String) :
    Except String Tables × List Event :=
  let st0 : TxState :=
    { tables := db, trace := [.query "max chat_items chat_item_id"], execCount := 0 }
  let maxChatItemID := coalesceMax0 db.chatItems "chat_item_id"
  let data := mkBulkData messages startMessageID maxChatItemID
  match bulkInsertMessagesM env jsonDir data st0 with
  | (st, .error e) => (.error ("failed to bulk insert messages: " ++ e), st.trace)
  | (st, .ok _) =>
  match bulkInsertChatItemsM env jsonDir contactID simplexFilesDir data st with
  | (st, .error e) => (.error ("failed to bulk insert chat items: " ++ e), st.trace)
  | (st, .ok _) =>
  match bulkInsertChatItemMessagesM env data st with
  | (st, .error e) => (.error ("failed to bulk insert chat item messages: " ++ e), st.trace)
  | (st, .ok _) =>
  match bulkInsertMsgDeliveriesM env data st with
  | (st, .error e) => (.error ("failed to bulk insert msg deliveries: " ++ e), st.trace)
  | (st, .ok _) =>
  match bulkInsertReactionsM env contactID data st with
  | (st, .error e) => (.error ("failed to bulk insert reactions: " ++ e), st.trace)
  | (st, .ok _) =>
    if env.commitFails then (.error "failed to commit transaction", st.trace)
    else (.ok st.tables, st.trace)

/-- What is visible in the database after one batch: the Go code opens the
transaction with `defer tx.Rollback()` and returns before `tx.Commit()` on
any error, so an error leaves the database as it was. -/
def runBatchVisible (env : Env) (db : Tables) (messages : List UniversalMessage)
    (startMessageID : Int) (jsonDir : String) (contactID : Int) (simplexFilesDir : String) :
    Tables :=
  match (bulkInsertUniversalMessagesM env db messages startMessageID jsonDir contactID
      simplexFilesDir).1 with
  | .ok t => t
  | .error _ => db

/-! ## The batch loop and reply resolution of main (src/main.go 3292-3469) -/

/-- The batch loop of main (src/main.go 3439-3456): batch `i..end` starts at
`batchStartID = startMessageID + i`; a failed batch calls `log.Fatalf`, so the
run stops with the previously committed batches still visible. -/
def runBatches (env : Env) (jsonDir : String) (contactID : Int) (simplexFilesDir : String) :
    List (List UniversalMessage) → Tables → Int → Tables
  | [], db, _ => db
  | b :: rest, db, batchStartID =>
    match (bulkInsertUniversalMessagesM env db b batchStartID jsonDir contactID
        simplexFilesDir).1 with
    | .error _ => db
    | .ok db' =>
      runBatches env jsonDir contactID simplexFilesDir rest db' (batchStartID + b.length)

/-- main's import loop (src/main.go 3398-3456): `startMessageID` is
`COALESCE(MAX(message_id), 0) + 1` queried once per run, and the message
stream is processed in batches of `batchSize` (500 in the code). -/
def runImport (env : Env) (db : Tables) (universalMessages : List UniversalMessage)
    (jsonDir : String) (contactID : Int) (simplexFilesDir : String) (batchSize : Nat) : Tables :=
  let startMessageID : Int := coalesceMax0 db.messages "message_id" + 1
  runBatches env jsonDir contactID simplexFilesDir (chunks batchSize universalMessages) db
    startMessageID

/-- The slice of a Discord export message that reply resolution reads
(src/main.go 1655-1699): its id, raw timestamp, author name, content, and the
referenced message id when the message is a reply. -/
structure DiscordMessageM where
  id : String
  timestamp : String
  authorName : String
  content : String
  referenceMessageID : Option String

/-- main's first pass (src/main.go 3411-3424): the Discord-id → shared-msg-id
map is built over the ENTIRE export before any message is converted, and
`shared_msg_id` is `[]byte(msg.ID)`. -/
def buildSharedMsgIDMap (msgs : List DiscordMessageM) : List (String × String) :=
  msgs.foldl (fun m msg => mapInsert m msg.id msg.id) []

/-- main's first pass, second map (src/main.go 3414-3418): Discord id → full
message. -/
def buildDiscordMessagesMap (msgs : List DiscordMessageM) : List (String × DiscordMessageM) :=
  msgs.foldl (fun m msg => mapInsert m msg.id msg) []

/-- The reply-reference block of ConvertDiscordMessage (src/main.go
2173-2200): returns the `ReplyToID` and `QuotedMessage` of the produced
UniversalMessage.  A reference found in the map resolves to a quote (whose
`IsSent` compares the quoted author to `myUsername`); an unresolved
reference keeps the original id and produces no quote.  The remaining fields
of ConvertDiscordMessage are irrelevant to the claims. -/
def convertReply (discordToSharedMsgID : List (String × String))
    (discordMessages : List (String × DiscordMessageM)) (myUsername : String)
    (discordMsg : DiscordMessageM) : Option String × Option QuotedMessage :=
  match discordMsg.referenceMessageID with
  | none => (none, none)
  | some referencedDiscordID =>
    match mapLookup discordToSharedMsgID referencedDiscordID with
    | some sharedMsgID =>
      (some sharedMsgID,
        match mapLookup discordMessages referencedDiscordID with
        | some quotedDiscordMsg =>
          some { sharedMsgID := sharedMsgID
                 sentAt := quotedDiscordMsg.timestamp
                 content := quotedDiscordMsg.content
                 isSent := quotedDiscordMsg.authorName = myUsername }
        | none => none)
    | none => (some referencedDiscordID, none)

/-- The two-pass conversion of main (src/main.go 3411-3433): both maps are
built over the whole export, then every message is converted against them. -/
def convertAllReplies (msgs : List DiscordMessageM) (myUsername : String) :
    List (Option String × Option QuotedMessage) :=
  let m1 := buildSharedMsgIDMap msgs
  let m2 := buildDiscordMessagesMap msgs
  msgs.map (convertReply m1 m2 myUsername)

/-! ## Concrete fixtures for witnesses and counterexamples -/

/-- A small but realistic schema for concrete runs: each table exposes the
key columns the engine writes. -/
def testSchema : String → List String := fun t =>
  if t = "messages" then ["message_id", "msg_body", "msg_sent"]
  else if t = "chat_items" then ["chat_item_id", "item_text", "quoted_sent"]
  else if t = "chat_item_messages" then ["rowid", "chat_item_id", "message_id"]
  else if t = "msg_deliveries" then ["msg_delivery_id", "agent_msg_id"]
  else if t = "files" then ["file_id", "chat_item_id"]
  else if t = "snd_files" then ["file_id", "last_inline_msg_delivery_id"]
  else if t = "rcv_files" then ["file_id"]
  else []

/-- An environment in which everything succeeds. -/
def envOk : Env :=
  { schema := testSchema
    encodeImage := fun _ => .ok "IMGB64"
    videoThumb := fun _ => .ok ("THUMB", 9)
    fileExists := fun _ => true
    copyOk := fun _ => true
    execFails := fun _ => false
    commitFails := false
    now := "now" }

/-- Like `envOk` but every `tx.Exec` fails. -/
def envExecFail : Env := { envOk with execFails := fun _ => true }

/-- Like `envOk` but both media materializers fail. -/
def envMediaFail : Env :=
  { envOk with encodeImage := fun _ => .error "encode failed"
               videoThumb := fun _ => .error "thumb failed" }

/-- A database with no pre-existing rows. -/
def emptyTables : Tables := ⟨[], [], [], [], [], [], [], []⟩

/-- A plain sent text message. -/
def msgText : UniversalMessage :=
  { id := "m1", content := "hello", timestamp := "t1", messageType := "text"
    attachments := [], reactions := [], replyToID := none, quotedMessage := none
    isSent := true }

/-- A received message carrying one generic file attachment. -/
def msgFileAtt : UniversalMessage :=
  { id := "m2", content := "doc", timestamp := "t2", messageType := "file"
    attachments := [{ id := "a1", filename := "doc.bin", url := "doc.bin", size := 5 }]
    reactions := [], replyToID := none, quotedMessage := none, isSent := false }

/-- A sent message carrying one image attachment. -/
def msgImage : UniversalMessage :=
  { id := "m3", content := "pic", timestamp := "t3", messageType := "image"
    attachments := [{ id := "a2", filename := "p.png", url := "p.png", size := 7 }]
    reactions := [], replyToID := none, quotedMessage := none, isSent := true }

/-- A sent message quoting one of the importing user's own messages. -/
def msgQuoteOwn : UniversalMessage :=
  { id := "m4", content := "re", timestamp := "t4", messageType := "text"
    attachments := [], reactions := [], replyToID := some "m1"
    quotedMessage :=
      some { sharedMsgID := "m1", sentAt := "t1", content := "hello", isSent := true }
    isSent := true }

/-- `msgQuoteOwn` packaged as insert data. -/
def msgDataQuoteOwn : MessageInsertData :=
  { messageID := 1, chatItemID := 1, sharedMsgID := "m4", message := msgQuoteOwn }

/-- `msgFileAtt` packaged as insert data. -/
def msgDataFileAtt : MessageInsertData :=
  { messageID := 1, chatItemID := 1, sharedMsgID := "m2", message := msgFileAtt }

/-- A fresh transaction state over the empty database. -/
def stEmpty : TxState := { tables := emptyTables, trace := [], execCount := 0 }

/-- A database whose only pre-existing row is a delivery row keyed
`msg_delivery_id = 5` (with `agent_msg_id = 7`); every other table is
empty. -/
def dbC6 : Tables :=
  { emptyTables with
      msgDeliveries := [[("msg_delivery_id", Value.int 5), ("agent_msg_id", Value.int 7)]] }

/-- Whether a fallible computation succeeded. -/
def exceptIsOk : Except ε α → Bool
  | .ok _ => true
  | .error _ => false

/-- The tables touched by the INSERT statements of a trace, in execution
order. -/
def execTables (tr : List Event) : List String :=
  tr.filterMap (fun e => match e with | .exec t => some t | .query _ => none)

/-- `st'` extends `st`'s trace, and every INSERT executed in between targets
one of the `allowed` tables. -/
def TraceDelta (allowed : List String) (st st' : TxState) : Prop :=
  ∃ Δ, st'.trace = st.trace ++ Δ ∧ ∀ x ∈ execTables Δ, x ∈ allowed

/-- How many times the query tagged `tag` was issued in a trace. -/
def queryCount (tag : String) (tr : List Event) : Nat :=
  (tr.filter (fun e => decide (e = .query tag))).length

/-- How many of the batch's messages carry at least one attachment (each such
message triggers one `insertFileAttachment` call). -/
def countAttachmentMsgs (msgs : List MessageInsertData) : Nat :=
  msgs.countP (fun md => !md.message.attachments.isEmpty)

/-- The integer values of column `col` over a list of stored rows, in order
(the surrogate keys of those rows when `col` is the key column). -/
def colIds (rows : List Row) (col : String) : List Int :=
  rows.filterMap (fun r => colInt r col)

/-- `n` consecutive integers starting at `base`: the keys an in-memory
allocator hands out. -/
def keysFrom (base : Int) (n : Nat) : List Int :=
  (List.range n).map (fun (i : Nat) => base + (i : Int))

/-- Total number of reaction rows a batch inserts. -/
def totalReactions (msgs : List MessageInsertData) : Nat :=
  (msgs.map (fun md => md.message.reactions.length)).sum

/-- The table effect of (a piece of) the chat-items step: `newCI` chat-item
rows appended; the files table grows by rows whose keys strictly increase
and all exceed the files max at the start; the transfer tables only grow;
every other table is untouched. -/
def ChatItemsEffect (st st' : TxState) (newCI : List Row) : Prop :=
  st'.tables.chatItems = st.tables.chatItems ++ newCI
  ∧ (∃ newF, st'.tables.files = st.tables.files ++ newF
      ∧ (∀ k ∈ colIds newF "file_id", coalesceMax0 st.tables.files "file_id" < k)
      ∧ (colIds newF "file_id").Pairwise (· < ·))
  ∧ (∃ newS, st'.tables.sndFiles = st.tables.sndFiles ++ newS)
  ∧ (∃ newR, st'.tables.rcvFiles = st.tables.rcvFiles ++ newR)
  ∧ st'.tables.messages = st.tables.messages
  ∧ st'.tables.chatItemMessages = st.tables.chatItemMessages
  ∧ st'.tables.msgDeliveries = st.tables.msgDeliveries
  ∧ st'.tables.chatItemReactions = st.tables.chatItemReactions

end DiscordToSimplex

namespace DiscordToSimplex

/-! # Theorems -/

/-! ## Map helper lemmas -/

theorem mapLookup_nil (k : String) : mapLookup ([] : List (String × α)) k = none := rfl

theorem mapLookup_mapInsert (m : List (String × α)) (k k' : String) (v : α) :
    mapLookup (mapInsert m k v) k' = if k' = k then some v else mapLookup m k' := rfl

theorem mapLookup_append (m₁ m₂ : List (String × α)) (k : String) :
    mapLookup (m₁ ++ m₂) k =
      match mapLookup m₁ k with
      | some v => some v
      | none => mapLookup m₂ k := by
  induction m₁ with
  | nil => simp [mapLookup]
  | cons p rest ih =>
    obtain ⟨k₁, v₁⟩ := p
    by_cases h : k = k₁
    · simp [mapLookup, h]
    · simpa [mapLookup, h] using ih

/-! ## Chunking lemmas -/

/-- `chunksF` does not depend on the fuel once it covers the list length. -/
theorem chunksF_congr (csize : Nat) :
    ∀ (f₁ f₂ : Nat) (ys : List α), ys.length ≤ f₁ → ys.length ≤ f₂ →
      chunksF csize f₁ ys = chunksF csize f₂ ys := by
  intro f₁
  induction f₁ with
  | zero =>
    intro f₂ ys h1 _
    have : ys = [] := List.eq_nil_of_length_eq_zero (by omega)
    subst this
    cases f₂ <;> rfl
  | succ g ih =>
    intro f₂ ys h1 h2
    cases ys with
    | nil => cases f₂ <;> rfl
    | cons y ys' =>
      simp only [List.length_cons] at h1 h2
      cases f₂ with
      | zero => omega
      | succ g₂ =>
        simp only [chunksF]
        congr 1
        exact ih g₂ (ys'.drop (csize - 1)) (by simp; omega) (by simp; omega)

theorem chunks_nil (csize : Nat) : chunks csize ([] : List α) = [] := rfl

theorem chunks_cons (csize : Nat) (x : α) (xs : List α) :
    chunks csize (x :: xs) = (x :: xs.take (csize - 1)) :: chunks csize (xs.drop (csize - 1)) := by
  show chunksF csize (xs.length + 1) (x :: xs) = _
  simp only [chunksF]
  congr 1
  exact chunksF_congr csize xs.length (xs.drop (csize - 1)).length (xs.drop (csize - 1))
    (by simp) le_rfl

theorem chunksF_flatten (csize : Nat) :
    ∀ (fuel : Nat) (ys : List α), ys.length ≤ fuel → (chunksF csize fuel ys).flatten = ys := by
  intro fuel
  induction fuel with
  | zero =>
    intro ys h
    have : ys = [] := List.eq_nil_of_length_eq_zero (by omega)
    subst this
    rfl
  | succ g ih =>
    intro ys h
    cases ys with
    | nil => rfl
    | cons y ys' =>
      simp only [chunksF, List.flatten_cons]
      rw [ih (ys'.drop (csize - 1)) (by simp; simp at h; omega)]
      simp [List.take_append_drop]

/-- Concatenating all chunks in order reproduces the original list. -/
theorem chunks_flatten (csize : Nat) (xs : List α) : (chunks csize xs).flatten = xs :=
  chunksF_flatten csize xs.length xs le_rfl

theorem chunksF_mem_length (csize : Nat) (hcs : 1 ≤ csize) :
    ∀ (fuel : Nat) (ys : List α), ys.length ≤ fuel →
      ∀ ch ∈ chunksF csize fuel ys, 1 ≤ ch.length ∧ ch.length ≤ csize := by
  intro fuel
  induction fuel with
  | zero =>
    intro ys h
    have : ys = [] := List.eq_nil_of_length_eq_zero (by omega)
    subst this
    simp [chunksF]
  | succ g ih =>
    intro ys h
    cases ys with
    | nil => simp [chunksF]
    | cons y ys' =>
      simp only [chunksF]
      intro ch hch
      rcases List.mem_cons.mp hch with heq | hmem
      · subst heq
        have : (ys'.take (csize - 1)).length ≤ csize - 1 := by
          simpa using Nat.min_le_left _ _
        simp only [List.length_cons]
        omega
      · exact ih (ys'.drop (csize - 1)) (by simp; simp at h; omega) ch hmem

/-- Every chunk is a nonempty slice of at most `csize` elements (for positive
`csize`). -/
theorem chunks_mem_length (csize : Nat) (hcs : 1 ≤ csize) (xs : List α) :
    ∀ ch ∈ chunks csize xs, 1 ≤ ch.length ∧ ch.length ≤ csize :=
  chunksF_mem_length csize hcs xs.length xs le_rfl

theorem chunksF_length (csize : Nat) (hcs : 1 ≤ csize) :
    ∀ (fuel : Nat) (ys : List α), ys.length ≤ fuel →
      (chunksF csize fuel ys).length = (ys.length + csize - 1) / csize := by
  intro fuel
  induction fuel with
  | zero =>
    intro ys h
    have : ys = [] := List.eq_nil_of_length_eq_zero (by omega)
    subst this
    simp only [chunksF, List.length_nil, Nat.zero_add]
    rw [Nat.div_eq_of_lt (by omega)]
  | succ g ih =>
    intro ys h
    cases ys with
    | nil =>
      simp only [chunksF, List.length_nil, Nat.zero_add]
      rw [Nat.div_eq_of_lt (by omega)]
    | cons y ys' =>
      simp only [List.length_cons] at h
      simp only [chunksF, List.length_cons,
        ih (ys'.drop (csize - 1)) (by simp; omega), List.length_drop]
      rcases le_or_lt (csize - 1) ys'.length with hc | hc
      · have h1 : ys'.length - (csize - 1) + csize - 1 = ys'.length := by omega
        have h2 : ys'.length + 1 + csize - 1 = ys'.length + csize := by omega
        rw [h1, h2, Nat.add_div_right _ (by omega)]
      · have h1 : ys'.length - (csize - 1) + csize - 1 = csize - 1 := by omega
        have h2 : ys'.length + 1 + csize - 1 = ys'.length + csize := by omega
        rw [h1, h2, Nat.add_div_right _ (by omega), Nat.div_eq_of_lt (by omega),
          Nat.div_eq_of_lt (by omega)]

/-- The number of chunks is `⌈|xs| / csize⌉ = (|xs| + csize - 1) / csize`. -/
theorem chunks_length (csize : Nat) (hcs : 1 ≤ csize) (xs : List α) :
    (chunks csize xs).length = (xs.length + csize - 1) / csize :=
  chunksF_length csize hcs xs.length xs le_rfl

/-- `calculateChunkSize` always returns at least 1. -/
theorem calculateChunkSize_pos (numColumns : Nat) (maxParams : Int) :
    1 ≤ calculateChunkSize numColumns maxParams := by
  unfold calculateChunkSize
  set mp := (if maxParams ≤ 0 then (900 : Nat) else maxParams.toNat) with hmp
  dsimp only
  split <;> omega

/-- For `1 ≤ C ≤ P` the clamp does not fire: the chunk size is `⌊P / C⌋`. -/
theorem calculateChunkSize_eq_div (C P : Nat) (hC : 1 ≤ C) (hCP : C ≤ P) :
    calculateChunkSize C (P : Int) = P / C := by
  unfold calculateChunkSize
  have hP : ¬ ((P : Int) ≤ 0) := by
    simp only [not_le]
    exact_mod_cast Nat.lt_of_lt_of_le hC hCP
  simp only [hP, if_false, Int.toNat_natCast]
  have h1 : 1 ≤ P / C := (Nat.one_le_div_iff (by omega)).mpr hCP
  rw [if_neg (by omega)]

/-! ## C1: the override-wins / template-fallback / null-default rule -/

/-- The merge loop's per-column value coincides with the spec's wording (when
a non-empty template lacks the column, the Go zero-value lookup yields nil,
i.e. NULL, matching the spec's final "else null"). -/
theorem mergeColumnValue_eq_spec (overrideFields templateRow : List (String × Value))
    (col : String) :
    mergeColumnValue overrideFields templateRow col =
      specColumnValue overrideFields templateRow col := by
  unfold mergeColumnValue specColumnValue mapGet
  cases mapLookup overrideFields col with
  | some v => rfl
  | none =>
    by_cases h : templateRow.length > 0
    · simp only [h, if_pos]
      cases mapLookup templateRow col <;> rfl
    · simp only [h, if_neg, if_false]

/-- C1 (confirmed): for every target table, every synthesized row, and every
column in the introspected column list, the value placed in the row is the
override value when the synthesizer has an explicit opinion for that column,
else the template row's value when a non-empty template row exists and
contains it, else NULL.  `buildRowValues` is the merge loop every insert
function applies per row (src/main.go 2528-2539, 2745-2755, 2813-2823,
2893-2903, 3006-3015, 3070-3079, 3108-3117); `specColumnValue` transcribes
the spec sentence. -/
theorem C1_override_template_null (overrideFields templateRow : List (String × Value))
    (columns : List String) :
    buildRowValues overrideFields templateRow columns =
      columns.map (specColumnValue overrideFields templateRow) := by
  unfold buildRowValues
  exact List.map_congr_left (fun col _ => mergeColumnValue_eq_spec overrideFields templateRow col)

/-! ## C3 and C10: chunking -/

/-- C3 (confirmed): for a table with `C ≥ 1` columns, `C ≤ P`, and parameter
ceiling `P`, a batch of `N` rows is emitted as exactly
`⌈N / ⌊P/C⌋⌉ = (N + ⌊P/C⌋ - 1) / ⌊P/C⌋` multi-row INSERT statements, every
chunk satisfies `chunkSize * C ≤ P` (it "stays under" the parameter ceiling,
which is itself strictly below the hard 999 limit), and concatenating the
chunks in order reproduces exactly the `N` rows. -/
theorem C3_chunking {α : Type} (rows : List α) (C P : Nat) (hC : 1 ≤ C) (hCP : C ≤ P) :
    (chunks (calculateChunkSize C (P : Int)) rows).length =
        (rows.length + P / C - 1) / (P / C)
    ∧ (∀ ch ∈ chunks (calculateChunkSize C (P : Int)) rows, ch.length * C ≤ P)
    ∧ (chunks (calculateChunkSize C (P : Int)) rows).flatten = rows := by
  have hk := calculateChunkSize_eq_div C P hC hCP
  have hk1 : 1 ≤ P / C := (Nat.one_le_div_iff (by omega)).mpr hCP
  refine ⟨?_, ?_, ?_⟩
  · rw [hk, chunks_length _ (by omega)]
  · intro ch hch
    rw [hk] at hch
    have hle := (chunks_mem_length _ hk1 rows ch hch).2
    calc ch.length * C ≤ (P / C) * C := Nat.mul_le_mul_right _ hle
      _ ≤ P := Nat.div_mul_le_self _ _
  · rw [chunks_flatten]

/-- Witness for C3 at `C = 3`, `P = 10`, `N = 7` rows. -/
theorem C3_chunking_witness :
    ((1 : Nat) ≤ 3 ∧ (3 : Nat) ≤ 10)
    ∧ (chunks (calculateChunkSize 3 ((10 : Nat) : Int)) [0, 1, 2, 3, 4, 5, 6]).length =
        (([0, 1, 2, 3, 4, 5, 6] : List Nat).length + 10 / 3 - 1) / (10 / 3)
    ∧ (chunks (calculateChunkSize 3 ((10 : Nat) : Int)) [0, 1, 2, 3, 4, 5, 6]).flatten =
        ([0, 1, 2, 3, 4, 5, 6] : List Nat) :=
  ⟨⟨by decide, by decide⟩,
    (C3_chunking [0, 1, 2, 3, 4, 5, 6] 3 10 (by decide) (by decide)).1,
    (C3_chunking [0, 1, 2, 3, 4, 5, 6] 3 10 (by decide) (by decide)).2.2⟩

/-- C10 (confirmed): for every `numColumns ≥ 1` and every `maxParams`
(non-positive values falling back to 900), `calculateChunkSize` returns at
least 1, so the chunking loops advance and terminate, producing nonempty
chunks whose concatenation is the full batch — even when a table has more
columns than the parameter ceiling. -/
theorem C10_chunk_progress (numColumns : Nat) (maxParams : Int) (h : 1 ≤ numColumns) :
    1 ≤ calculateChunkSize numColumns maxParams
    ∧ ∀ (rows : List Nat),
        (chunks (calculateChunkSize numColumns maxParams) rows).flatten = rows
        ∧ ∀ ch ∈ chunks (calculateChunkSize numColumns maxParams) rows, ch ≠ [] := by
  refine ⟨calculateChunkSize_pos numColumns maxParams, fun rows => ⟨chunks_flatten _ _, ?_⟩⟩
  intro ch hch
  have h1 :=
    (chunks_mem_length _ (calculateChunkSize_pos numColumns maxParams) rows ch hch).1
  exact List.ne_nil_of_length_pos (by omega)

/-- Witness for C10 with more columns (1000) than the ceiling (900). -/
theorem C10_chunk_progress_witness :
    (1 : Nat) ≤ 1000
    ∧ 1 ≤ calculateChunkSize 1000 900
    ∧ (chunks (calculateChunkSize 1000 900) [5, 6]).flatten = [5, 6] :=
  ⟨by decide, (C10_chunk_progress 1000 900 (by decide)).1,
    ((C10_chunk_progress 1000 900 (by decide)).2 [5, 6]).1⟩

/-! ## C4: reply resolution is NOT source-order dependent -/

/-- Counterexample to C4 as stated: message "1" replies to message "2", which
appears LATER in the stream, yet the reference resolves and a quote is
produced (main builds both lookup maps over the entire export before
converting any message, src/main.go 3411-3433). -/
theorem C4_later_reply_counterexample :
    (convertAllReplies
        [⟨"1", "t1", "alice", "hello", some "2"⟩, ⟨"2", "t2", "bob", "later", none⟩]
        "alice").head? =
      some (some "2", some ⟨"2", "t2", "later", false⟩) := by
  rfl

/-- Lookup into the maps built by main's first pass succeeds exactly for the
ids occurring anywhere in the export. -/
theorem mapLookup_foldl_mapInsert_isSome {β : Type} (f : DiscordMessageM → β)
    (msgs : List DiscordMessageM) (acc : List (String × β)) (r : String) :
    (mapLookup (msgs.foldl (fun m msg => mapInsert m msg.id (f msg)) acc) r).isSome =
      ((msgs.map (fun msg => msg.id)).contains r || (mapLookup acc r).isSome) := by
  induction msgs generalizing acc with
  | nil => simp
  | cons m ms ih =>
    simp only [List.foldl_cons, List.map_cons, List.contains_cons]
    rw [ih]
    by_cases h : r = m.id
    · simp [mapLookup_mapInsert, h]
    · have hbeq : (r == m.id) = false := by
        simp only [beq_eq_false_iff_ne, ne_eq]
        exact h
      simp [mapLookup_mapInsert, h, hbeq]

/-- C4 (amended, proved): a reply reference resolves to a quote exactly when
the referenced message id appears ANYWHERE in the input stream — earlier or
later — because main's first pass builds the id maps over the whole export
before converting; only references to messages outside the export stay
unresolved. -/
theorem C4_reply_resolution (msgs : List DiscordMessageM) (myUsername : String)
    (dm : DiscordMessageM) :
    ((convertReply (buildSharedMsgIDMap msgs) (buildDiscordMessagesMap msgs) myUsername dm).2).isSome =
      match dm.referenceMessageID with
      | some r => (msgs.map (fun msg => msg.id)).contains r
      | none => false := by
  unfold convertReply
  cases href : dm.referenceMessageID with
  | none => rfl
  | some r =>
    have h1 := mapLookup_foldl_mapInsert_isSome (fun msg => msg.id) msgs [] r
    have h2 := mapLookup_foldl_mapInsert_isSome (fun msg => msg) msgs [] r
    simp only [mapLookup_nil, Option.isSome_none, Bool.or_false] at h1 h2
    unfold buildSharedMsgIDMap buildDiscordMessagesMap
    dsimp only
    cases hx : mapLookup (msgs.foldl (fun m msg => mapInsert m msg.id msg.id) [] : List (String × String)) r with
    | none =>
      rw [hx] at h1
      exact h1
    | some sharedMsgID =>
      rw [hx] at h1
      simp only [Option.isSome_some] at h1
      cases hy : mapLookup (msgs.foldl (fun m msg => mapInsert m msg.id msg) [] : List (String × DiscordMessageM)) r with
      | none =>
        rw [hy] at h2
        simp only [Option.isSome_none] at h2
        rw [← h1] at h2
        exact (Bool.false_ne_true h2).elim
      | some quoted =>
        exact h1

/-! ## C9: the two representations of a quote's directionality -/

/-- C9 (confirmed): for every message with a resolved quote, the `sent` flag
inside the serialized msg_body's quote msgRef is always `false`
(src/main.go 2489 hard-codes it; the line using the real flag is commented
out), while the chat_items row's `quoted_sent` override is `1` exactly when
the quoted message was sent by the importing user — so the two
representations disagree whenever the user quotes their own message. -/
theorem C9_quote_sent_mismatch (env : Env) (jsonDir : String) (contactID : Int)
    (msgData : MessageInsertData) (q : QuotedMessage)
    (h : msgData.message.quotedMessage = some q) :
    msgBodyQuoteSent (buildMsgBody env jsonDir msgData.message) = some (.bool false)
    ∧ mapLookup (chatItemsOverrideFields env jsonDir contactID msgData) "quoted_sent" =
        some (.int (if q.isSent then 1 else 0)) := by
  constructor
  · unfold msgBodyQuoteSent buildMsgBody
    rw [h]
    cases hfi : (buildMessagesContent env jsonDir msgData.message).2 with
    | none => simp [Json.getField, mapLookup, buildQuoteJson, hfi]
    | some fi => simp [Json.getField, mapLookup, buildQuoteJson, hfi]
  · unfold chatItemsOverrideFields
    dsimp only
    rw [h]
    simp [mapLookup, mapLookup_append]

/-- Witness for C9: a concrete message quoting one of the user's own
messages; the serialized flag says `false` while the column says `1`. -/
theorem C9_quote_sent_mismatch_witness :
    msgDataQuoteOwn.message.quotedMessage =
        some { sharedMsgID := "m1", sentAt := "t1", content := "hello", isSent := true }
    ∧ (msgBodyQuoteSent (buildMsgBody envOk "dir" msgDataQuoteOwn.message) = some (.bool false)
        ∧ mapLookup (chatItemsOverrideFields envOk "dir" 7 msgDataQuoteOwn) "quoted_sent" =
          some (.int
            (if ({ sharedMsgID := "m1", sentAt := "t1", content := "hello", isSent := true } :
                QuotedMessage).isSent then 1 else 0))) :=
  ⟨rfl, C9_quote_sent_mismatch envOk "dir" 7 msgDataQuoteOwn _ rfl⟩

/-! ## C2: batch atomicity -/

/-- C2 (confirmed): if any table-synthesis step of a batch returns an error,
no row from that batch is visible afterwards.  All six steps of
`bulkInsertUniversalMessagesM` write only to the open transaction's state,
the first error short-circuits before `tx.Commit`, and the deferred rollback
(`runBatchVisible`) discards the transaction, leaving the database exactly
as it was. -/
theorem C2_batch_atomicity (env : Env) (db : Tables) (messages : List UniversalMessage)
    (startMessageID : Int) (jsonDir : String) (contactID : Int) (simplexFilesDir : String)
    (e : String)
    (h : (bulkInsertUniversalMessagesM env db messages startMessageID jsonDir contactID
        simplexFilesDir).1 = .error e) :
    runBatchVisible env db messages startMessageID jsonDir contactID simplexFilesDir = db := by
  unfold runBatchVisible
  rw [h]

/-- Witness for C2: with every `tx.Exec` failing, the batch errors in the
messages step and the visible database is unchanged. -/
theorem C2_batch_atomicity_witness :
    (bulkInsertUniversalMessagesM envExecFail emptyTables [msgText] 1 "dir" 7 "sx").1 =
        .error "failed to bulk insert messages: failed to execute messages"
    ∧ runBatchVisible envExecFail emptyTables [msgText] 1 "dir" 7 "sx" = emptyTables :=
  ⟨by rfl, C2_batch_atomicity envExecFail emptyTables [msgText] 1 "dir" 7 "sx" _ (by rfl)⟩

/-! ## C7: which construction failures abort a batch -/

theorem execInsert_ok (env : Env) (hex : ∀ n, env.execFails n = false) (table : String)
    (rows : List Row) (st : TxState) : (execInsert env table rows st).2 = .ok () := by
  simp [execInsert, hex st.execCount]

theorem execChunks_ok (env : Env) (hex : ∀ n, env.execFails n = false) (table : String) :
    ∀ (chunked : List (List Row)) (st : TxState), (execChunks env table chunked st).2 = .ok () := by
  intro chunked
  induction chunked with
  | nil => intro st; rfl
  | cons c cs ih =>
    intro st
    have h2 := execInsert_ok env hex table c st
    unfold execChunks
    rcases hE : execInsert env table c st with ⟨st', r⟩
    rw [hE] at h2
    cases r with
    | ok u => exact ih st'
    | error e => simp at h2

theorem chatItemsChunkLoop_ok (env : Env) (hex : ∀ n, env.execFails n = false)
    (jsonDir simplexFilesDir : String) (contactID : Int)
    (templateRow : List (String × Value)) (columns : List String) :
    ∀ (chunked : List (List MessageInsertData)) (st : TxState),
      (chatItemsChunkLoop env jsonDir simplexFilesDir contactID templateRow columns
        chunked st).2 = .ok () := by
  intro chunked
  induction chunked with
  | nil => intro st; rfl
  | cons c cs ih =>
    intro st
    unfold chatItemsChunkLoop
    dsimp only
    have h2 := execInsert_ok env hex "chat_items"
      (chatItemsChunkRows env jsonDir simplexFilesDir contactID templateRow columns c st).2
      (chatItemsChunkRows env jsonDir simplexFilesDir contactID templateRow columns c st).1
    rcases hE : execInsert env "chat_items"
        (chatItemsChunkRows env jsonDir simplexFilesDir contactID templateRow columns c st).2
        (chatItemsChunkRows env jsonDir simplexFilesDir contactID templateRow columns c st).1
      with ⟨st', r⟩
    rw [hE] at h2
    cases r with
    | ok u => exact ih st'
    | error e => simp at h2

theorem reactionsOfMsg_ok (env : Env) (hex : ∀ n, env.execFails n = false) (contactID : Int)
    (msgData : MessageInsertData) :
    ∀ (reactions : List UniversalReaction) (counter : Int) (st : TxState),
      (reactionsOfMsg env contactID msgData reactions counter st).2.2 = .ok () := by
  intro reactions
  induction reactions with
  | nil => intro counter st; rfl
  | cons reaction rest ih =>
    intro counter st
    unfold reactionsOfMsg
    have h2 := execInsert_ok env hex "chat_item_reactions"
      [reactionRow contactID counter msgData reaction] st
    rcases hE : execInsert env "chat_item_reactions"
        [reactionRow contactID counter msgData reaction] st with ⟨st', r⟩
    rw [hE] at h2
    cases r with
    | ok u => exact ih (counter + 1) st'
    | error e => simp at h2

theorem reactionsLoop_ok (env : Env) (hex : ∀ n, env.execFails n = false) (contactID : Int) :
    ∀ (msgs : List MessageInsertData) (counter : Int) (st : TxState),
      (reactionsLoop env contactID msgs counter st).2 = .ok () := by
  intro msgs
  induction msgs with
  | nil => intro counter st; rfl
  | cons md rest ih =>
    intro counter st
    unfold reactionsLoop
    have h2 := reactionsOfMsg_ok env hex contactID md md.message.reactions counter st
    rcases hE : reactionsOfMsg env contactID md md.message.reactions counter st
      with ⟨st', counter', r⟩
    rw [hE] at h2
    cases r with
    | ok u => exact ih counter' st'
    | error e => simp at h2

theorem bulkInsertMessagesM_ok (env : Env) (hex : ∀ n, env.execFails n = false)
    (jsonDir : String) (data : BulkInsertData) (st : TxState) :
    (bulkInsertMessagesM env jsonDir data st).2 = .ok () := by
  unfold bulkInsertMessagesM
  exact execChunks_ok env hex _ _ _

theorem bulkInsertChatItemsM_ok (env : Env) (hex : ∀ n, env.execFails n = false)
    (jsonDir : String) (contactID : Int) (simplexFilesDir : String) (data : BulkInsertData)
    (st : TxState) :
    (bulkInsertChatItemsM env jsonDir contactID simplexFilesDir data st).2 = .ok () := by
  unfold bulkInsertChatItemsM
  exact chatItemsChunkLoop_ok env hex _ _ _ _ _ _ _

theorem bulkInsertChatItemMessagesM_ok (env : Env) (hex : ∀ n, env.execFails n = false)
    (data : BulkInsertData) (st : TxState) :
    (bulkInsertChatItemMessagesM env data st).2 = .ok () := by
  unfold bulkInsertChatItemMessagesM
  exact execChunks_ok env hex _ _ _

theorem bulkInsertMsgDeliveriesM_ok (env : Env) (hex : ∀ n, env.execFails n = false)
    (data : BulkInsertData) (st : TxState) :
    (bulkInsertMsgDeliveriesM env data st).2 = .ok () := by
  unfold bulkInsertMsgDeliveriesM
  exact execChunks_ok env hex _ _ _

theorem bulkInsertReactionsM_ok (env : Env) (hex : ∀ n, env.execFails n = false)
    (contactID : Int) (data : BulkInsertData) (st : TxState) :
    (bulkInsertReactionsM env contactID data st).2 = .ok () := by
  unfold bulkInsertReactionsM
  exact reactionsLoop_ok env hex _ _ _ _

/-- With no statement-execution or commit failure, a whole batch succeeds no
matter what the media materializers or the filesystem do. -/
theorem batch_ok_of_exec_ok (env : Env) (hex : ∀ n, env.execFails n = false)
    (hc : env.commitFails = false) (db : Tables) (msgs : List UniversalMessage)
    (startID : Int) (jsonDir : String) (contactID : Int) (sfd : String) :
    exceptIsOk (bulkInsertUniversalMessagesM env db msgs startID jsonDir contactID sfd).1 =
      true := by
  unfold bulkInsertUniversalMessagesM
  have h1 := bulkInsertMessagesM_ok env hex jsonDir
    (mkBulkData msgs startID (coalesceMax0 db.chatItems "chat_item_id"))
    { tables := db, trace := [.query "max chat_items chat_item_id"], execCount := 0 }
  rcases hE1 : bulkInsertMessagesM env jsonDir
      (mkBulkData msgs startID (coalesceMax0 db.chatItems "chat_item_id"))
      { tables := db, trace := [.query "max chat_items chat_item_id"], execCount := 0 }
    with ⟨st1, r1⟩
  rw [hE1] at h1
  cases r1 with
  | error e => simp at h1
  | ok u1 =>
    have h2 := bulkInsertChatItemsM_ok env hex jsonDir contactID sfd
      (mkBulkData msgs startID (coalesceMax0 db.chatItems "chat_item_id")) st1
    rcases hE2 : bulkInsertChatItemsM env jsonDir contactID sfd
        (mkBulkData msgs startID (coalesceMax0 db.chatItems "chat_item_id")) st1
      with ⟨st2, r2⟩
    rw [hE2] at h2
    cases r2 with
    | error e => simp at h2
    | ok u2 =>
      have h3 := bulkInsertChatItemMessagesM_ok env hex
        (mkBulkData msgs startID (coalesceMax0 db.chatItems "chat_item_id")) st2
      rcases hE3 : bulkInsertChatItemMessagesM env
          (mkBulkData msgs startID (coalesceMax0 db.chatItems "chat_item_id")) st2
        with ⟨st3, r3⟩
      rw [hE3] at h3
      cases r3 with
      | error e => simp at h3
      | ok u3 =>
        have h4 := bulkInsertMsgDeliveriesM_ok env hex
          (mkBulkData msgs startID (coalesceMax0 db.chatItems "chat_item_id")) st3
        rcases hE4 : bulkInsertMsgDeliveriesM env
            (mkBulkData msgs startID (coalesceMax0 db.chatItems "chat_item_id")) st3
          with ⟨st4, r4⟩
        rw [hE4] at h4
        cases r4 with
        | error e => simp at h4
        | ok u4 =>
          have h5 := bulkInsertReactionsM_ok env hex contactID
            (mkBulkData msgs startID (coalesceMax0 db.chatItems "chat_item_id")) st4
          rcases hE5 : bulkInsertReactionsM env contactID
              (mkBulkData msgs startID (coalesceMax0 db.chatItems "chat_item_id")) st4
            with ⟨st5, r5⟩
          rw [hE5] at h5
          cases r5 with
          | error e => simp at h5
          | ok u5 => simp [hE1, hE2, hE3, hE4, hE5, hc, exceptIsOk]

/-- Counterexample to C7 as stated: the image encoder fails for the only
message of the batch, yet the batch succeeds (the error is logged and the
content falls back to text) instead of aborting with an error. -/
theorem C7_media_error_counterexample :
    envMediaFail.encodeImage (pathJoin "dir" "p.png") = .error "encode failed"
    ∧ exceptIsOk
        (bulkInsertUniversalMessagesM envMediaFail emptyTables [msgImage] 1 "dir" 7 "sx").1 =
      true :=
  ⟨rfl, by rfl⟩

/-- C7 (amended, proved): a payload serialization failure aborts the batch
(in the model `json.Marshal` is total because it cannot fail on the values
the code builds, so no such abort is reachable), but an error from the
attachment media materialization steps (image encoding, video thumbnail
generation, file-attachment insertion) does NOT abort: it is logged, and row
synthesis continues with a fallback representation.  Concretely: (a) when no
`tx.Exec` or commit fails, the whole batch succeeds regardless of what the
media materializers or the filesystem do; (b) an image-encoding failure
yields the `[Image: name]` text fallback content with no file info. -/
theorem C7_failure_semantics_amended :
    (∀ env : Env, (∀ n, env.execFails n = false) → env.commitFails = false →
      ∀ (db : Tables) (msgs : List UniversalMessage) (startID : Int) (jsonDir : String)
        (contactID : Int) (sfd : String),
        exceptIsOk (bulkInsertUniversalMessagesM env db msgs startID jsonDir contactID sfd).1 =
          true)
    ∧ (∀ (env : Env) (jsonDir : String) (msg : UniversalMessage)
        (attachment : UniversalAttachment) (rest : List UniversalAttachment) (err : String),
        msg.attachments = attachment :: rest → msg.messageType = "image" →
        env.encodeImage (pathJoin jsonDir attachment.url) = .error err →
        buildMessagesContent env jsonDir msg =
          (.obj [("text", .str ("[Image: " ++ attachment.filename ++ "]" ++
              (if msg.content ≠ "" then "\n" ++ msg.content else ""))),
            ("type", .str "text")], none)) := by
  constructor
  · intro env hex hc db msgs startID jsonDir contactID sfd
    exact batch_ok_of_exec_ok env hex hc db msgs startID jsonDir contactID sfd
  · intro env jsonDir msg attachment rest err hatt htype herr
    unfold buildMessagesContent
    rw [hatt, htype]
    simp [herr]

/-- Witness for C7: the amended claim applied at a concrete batch whose only
message is an image whose encoding fails. -/
theorem C7_failure_semantics_amended_witness :
    exceptIsOk
        (bulkInsertUniversalMessagesM envMediaFail emptyTables [msgImage] 1 "dir" 7 "sx").1 =
      true
    ∧ buildMessagesContent envMediaFail "dir" msgImage =
        (.obj [("text", .str ("[Image: " ++ "p.png" ++ "]" ++
            (if "pic" ≠ "" then "\n" ++ "pic" else ""))),
          ("type", .str "text")], none) :=
  ⟨C7_failure_semantics_amended.1 envMediaFail (fun _ => rfl) rfl emptyTables [msgImage] 1
      "dir" 7 "sx",
    C7_failure_semantics_amended.2 envMediaFail "dir" msgImage
      { id := "a2", filename := "p.png", url := "p.png", size := 7 } [] "encode failed"
      rfl rfl rfl⟩

/-! ## C8: in which order the tables are populated -/

theorem execTables_append (t₁ t₂ : List Event) :
    execTables (t₁ ++ t₂) = execTables t₁ ++ execTables t₂ := by
  simp [execTables]

theorem traceDelta_refl (A : List String) (st : TxState) : TraceDelta A st st :=
  ⟨[], by simp, by simp [execTables]⟩

theorem traceDelta_comp {A : List String} {st st' st'' : TxState}
    (h₁ : TraceDelta A st st') (h₂ : TraceDelta A st' st'') : TraceDelta A st st'' := by
  obtain ⟨Δ₁, e₁, m₁⟩ := h₁
  obtain ⟨Δ₂, e₂, m₂⟩ := h₂
  refine ⟨Δ₁ ++ Δ₂, by rw [e₂, e₁, List.append_assoc], ?_⟩
  intro x hx
  rw [execTables_append] at hx
  rcases List.mem_append.mp hx with h | h
  · exact m₁ x h
  · exact m₂ x h

theorem traceDelta_logQuery (A : List String) (st : TxState) (tag : String) :
    TraceDelta A st (st.logQuery tag) :=
  ⟨[.query tag], rfl, by simp [execTables]⟩

/-- `getTemplateRowM` only reads: its final state is the input state plus one
query event. -/
theorem getTemplateRowM_state (st : TxState) (table idColumn : String) :
    (getTemplateRowM st table idColumn).2 = st.logQuery ("template " ++ table) := by
  unfold getTemplateRowM
  dsimp only
  split
  · rfl
  · split <;> rfl

theorem traceDelta_getTemplateRowM (A : List String) (st : TxState) (table idColumn : String) :
    TraceDelta A st (getTemplateRowM st table idColumn).2 := by
  rw [getTemplateRowM_state]
  exact traceDelta_logQuery A st _

theorem execInsert_trace (env : Env) (table : String) (rows : List Row) (st : TxState) :
    (execInsert env table rows st).1.trace = st.trace ++ [.exec table] := by
  unfold execInsert
  split <;> rfl

theorem traceDelta_execInsert {A : List String} (hA : table ∈ A) (env : Env)
    (rows : List Row) (st : TxState) : TraceDelta A st (execInsert env table rows st).1 :=
  ⟨[.exec table], execInsert_trace env table rows st, by simp [execTables, hA]⟩

theorem traceDelta_execChunks {A : List String} (hA : table ∈ A) (env : Env) :
    ∀ (chunked : List (List Row)) (st : TxState),
      TraceDelta A st (execChunks env table chunked st).1 := by
  intro chunked
  induction chunked with
  | nil => intro st; exact traceDelta_refl A st
  | cons c cs ih =>
    intro st
    unfold execChunks
    rcases hE : execInsert env table c st with ⟨st', r⟩
    have hd : TraceDelta A st st' := by
      have := traceDelta_execInsert hA env c st
      rwa [hE] at this
    cases r with
    | ok u => exact traceDelta_comp hd (ih st')
    | error e => exact hd

theorem traceDelta_insertSndFileM {A : List String} (hA : "snd_files" ∈ A) (env : Env)
    (fileID : Int) (st : TxState) : TraceDelta A st (insertSndFileM env fileID st).1 := by
  unfold insertSndFileM
  exact traceDelta_comp (traceDelta_getTemplateRowM A st _ _)
    (traceDelta_comp (traceDelta_logQuery A _ _) (traceDelta_execInsert hA env _ _))

theorem traceDelta_insertRcvFileM {A : List String} (hA : "rcv_files" ∈ A) (env : Env)
    (fileID : Int) (st : TxState) : TraceDelta A st (insertRcvFileM env fileID st).1 := by
  unfold insertRcvFileM
  exact traceDelta_comp (traceDelta_getTemplateRowM A st _ _) (traceDelta_execInsert hA env _ _)

theorem traceDelta_insertFileAttachmentM {A : List String} (h₁ : "files" ∈ A)
    (h₂ : "snd_files" ∈ A) (h₃ : "rcv_files" ∈ A) (env : Env)
    (jsonDir simplexFilesDir : String) (contactID : Int) (attachment : UniversalAttachment)
    (chatItemID : Int) (isSent : Bool) (messageType : String) (st : TxState) :
    TraceDelta A st
      (insertFileAttachmentM env jsonDir simplexFilesDir contactID attachment chatItemID
        isSent messageType st).1 := by
  have hd₁ : TraceDelta A st
      ((getTemplateRowM st "files" "file_id").2.logQuery "nextkey files file_id") :=
    traceDelta_comp (traceDelta_getTemplateRowM A st _ _) (traceDelta_logQuery A _ _)
  unfold insertFileAttachmentM
  dsimp only
  by_cases hfe : env.fileExists (pathJoin jsonDir attachment.url)
  case neg => simp only [hfe, Bool.false_eq_true, not_false_eq_true, if_pos]; exact traceDelta_refl A st
  case pos =>
  simp only [hfe, not_true_eq_false, if_neg, if_false, Bool.not_true]
  by_cases hcp : env.copyOk (pathJoin jsonDir attachment.url)
  case neg => simp only [hcp, Bool.false_eq_true, not_false_eq_true, if_pos]; exact hd₁
  case pos =>
  simp only [hcp, not_true_eq_false, if_neg, if_false, Bool.not_true]
  split
  case h_1 st' e heq =>
    refine traceDelta_comp hd₁ ?_
    have := traceDelta_execInsert h₁ env
      ([(env.schema "files").zip
        (buildRowValues
          (filesOverrideFields env contactID attachment chatItemID
            (coalesceMax0 (getTemplateRowM st "files" "file_id").2.tables.files "file_id" + 1)
            (if messageType = "video" then ("snd_stored", "local")
             else if messageType = "image" ∨ messageType = "voice" then
               ((if isSent then "snd_complete" else "rcv_complete"), "xftp")
             else ((if isSent then "snd_complete" else "rcv_complete"), "smp")).1
            (if messageType = "video" then ("snd_stored", "local")
             else if messageType = "image" ∨ messageType = "voice" then
               ((if isSent then "snd_complete" else "rcv_complete"), "xftp")
             else ((if isSent then "snd_complete" else "rcv_complete"), "smp")).2)
          (getTemplateRowM st "files" "file_id").1 (env.schema "files"))])
      ((getTemplateRowM st "files" "file_id").2.logQuery "nextkey files file_id")
    rw [heq] at this
    exact this
  case h_2 st' u heq =>
    have hd₂ : TraceDelta A st st' := by
      refine traceDelta_comp hd₁ ?_
      have := traceDelta_execInsert h₁ env
        ([(env.schema "files").zip
          (buildRowValues
            (filesOverrideFields env contactID attachment chatItemID
              (coalesceMax0 (getTemplateRowM st "files" "file_id").2.tables.files "file_id" + 1)
              (if messageType = "video" then ("snd_stored", "local")
               else if messageType = "image" ∨ messageType = "voice" then
                 ((if isSent then "snd_complete" else "rcv_complete"), "xftp")
               else ((if isSent then "snd_complete" else "rcv_complete"), "smp")).1
              (if messageType = "video" then ("snd_stored", "local")
               else if messageType = "image" ∨ messageType = "voice" then
                 ((if isSent then "snd_complete" else "rcv_complete"), "xftp")
               else ((if isSent then "snd_complete" else "rcv_complete"), "smp")).2)
            (getTemplateRowM st "files" "file_id").1 (env.schema "files"))])
        ((getTemplateRowM st "files" "file_id").2.logQuery "nextkey files file_id")
      rw [heq] at this
      exact this
    by_cases hv : messageType = "video"
    case pos =>
      simp only [ne_eq, hv, not_true_eq_false, if_neg, if_false]
      exact hd₂
    case neg =>
      simp only [ne_eq, hv, not_false_eq_true, if_pos]
      split
      case h_1 st'' e heq₂ =>
        refine traceDelta_comp hd₂ ?_
        by_cases hs : isSent
        · rw [if_pos (by simp [hs])] at heq₂
          have := traceDelta_insertSndFileM h₂ env
            (coalesceMax0 (getTemplateRowM st "files" "file_id").2.tables.files "file_id" + 1) st'
          rw [heq₂] at this
          exact this
        · rw [if_neg (by simp [hs])] at heq₂
          have := traceDelta_insertRcvFileM h₃ env
            (coalesceMax0 (getTemplateRowM st "files" "file_id").2.tables.files "file_id" + 1) st'
          rw [heq₂] at this
          exact this
      case h_2 st'' u₂ heq₂ =>
        refine traceDelta_comp hd₂ ?_
        by_cases hs : isSent
        · rw [if_pos (by simp [hs])] at heq₂
          have := traceDelta_insertSndFileM h₂ env
            (coalesceMax0 (getTemplateRowM st "files" "file_id").2.tables.files "file_id" + 1) st'
          rw [heq₂] at this
          exact this
        · rw [if_neg (by simp [hs])] at heq₂
          have := traceDelta_insertRcvFileM h₃ env
            (coalesceMax0 (getTemplateRowM st "files" "file_id").2.tables.files "file_id" + 1) st'
          rw [heq₂] at this
          exact this

theorem traceDelta_chatItemRowStep {A : List String} (h₁ : "files" ∈ A) (h₂ : "snd_files" ∈ A)
    (h₃ : "rcv_files" ∈ A) (env : Env) (jsonDir simplexFilesDir : String) (contactID : Int)
    (templateRow : List (String × Value)) (columns : List String)
    (msgData : MessageInsertData) (st : TxState) :
    TraceDelta A st
      (chatItemRowStep env jsonDir simplexFilesDir contactID templateRow columns msgData st).1 := by
  unfold chatItemRowStep
  dsimp only
  rcases hatt : msgData.message.attachments with _ | ⟨attachment, rest⟩
  · exact traceDelta_refl A st
  · exact traceDelta_insertFileAttachmentM h₁ h₂ h₃ env jsonDir simplexFilesDir contactID
      attachment msgData.chatItemID msgData.message.isSent msgData.message.messageType st

theorem traceDelta_chatItemsChunkRows {A : List String} (h₁ : "files" ∈ A)
    (h₂ : "snd_files" ∈ A) (h₃ : "rcv_files" ∈ A) (env : Env)
    (jsonDir simplexFilesDir : String) (contactID : Int)
    (templateRow : List (String × Value)) (columns : List String) :
    ∀ (chunk : List MessageInsertData) (st : TxState),
      TraceDelta A st
        (chatItemsChunkRows env jsonDir simplexFilesDir contactID templateRow columns
          chunk st).1 := by
  intro chunk
  induction chunk with
  | nil => intro st; exact traceDelta_refl A st
  | cons md rest ih =>
    intro st
    unfold chatItemsChunkRows
    exact traceDelta_comp
      (traceDelta_chatItemRowStep h₁ h₂ h₃ env jsonDir simplexFilesDir contactID templateRow
        columns md st)
      (ih _)

theorem traceDelta_chatItemsChunkLoop {A : List String} (h₁ : "files" ∈ A)
    (h₂ : "snd_files" ∈ A) (h₃ : "rcv_files" ∈ A) (h₄ : "chat_items" ∈ A) (env : Env)
    (jsonDir simplexFilesDir : String) (contactID : Int)
    (templateRow : List (String × Value)) (columns : List String) :
    ∀ (chunked : List (List MessageInsertData)) (st : TxState),
      TraceDelta A st
        (chatItemsChunkLoop env jsonDir simplexFilesDir contactID templateRow columns
          chunked st).1 := by
  intro chunked
  induction chunked with
  | nil => intro st; exact traceDelta_refl A st
  | cons c cs ih =>
    intro st
    unfold chatItemsChunkLoop
    dsimp only
    have hrows := traceDelta_chatItemsChunkRows h₁ h₂ h₃ env jsonDir simplexFilesDir contactID
      templateRow columns c st
    rcases hE : execInsert env "chat_items"
        (chatItemsChunkRows env jsonDir simplexFilesDir contactID templateRow columns c st).2
        (chatItemsChunkRows env jsonDir simplexFilesDir contactID templateRow columns c st).1
      with ⟨st', r⟩
    have hd : TraceDelta A st st' := by
      refine traceDelta_comp hrows ?_
      have := traceDelta_execInsert h₄ env
        (chatItemsChunkRows env jsonDir simplexFilesDir contactID templateRow columns c st).2
        (chatItemsChunkRows env jsonDir simplexFilesDir contactID templateRow columns c st).1
      rw [hE] at this
      exact this
    cases r with
    | ok u => exact traceDelta_comp hd (ih st')
    | error e => exact hd

theorem traceDelta_bulkInsertMessagesM (env : Env) (jsonDir : String) (data : BulkInsertData)
    (st : TxState) :
    TraceDelta ["messages"] st (bulkInsertMessagesM env jsonDir data st).1 := by
  unfold bulkInsertMessagesM
  exact traceDelta_comp (traceDelta_getTemplateRowM _ st _ _)
    (@traceDelta_execChunks "messages" _ (by decide) env _ _)

theorem traceDelta_bulkInsertChatItemsM (env : Env) (jsonDir : String) (contactID : Int)
    (simplexFilesDir : String) (data : BulkInsertData) (st : TxState) :
    TraceDelta ["files", "snd_files", "rcv_files", "chat_items"] st
      (bulkInsertChatItemsM env jsonDir contactID simplexFilesDir data st).1 := by
  unfold bulkInsertChatItemsM
  exact traceDelta_comp (traceDelta_getTemplateRowM _ st _ _)
    (traceDelta_chatItemsChunkLoop (by decide) (by decide) (by decide) (by decide) env jsonDir
      simplexFilesDir contactID _ _ _ _)

theorem traceDelta_bulkInsertChatItemMessagesM (env : Env) (data : BulkInsertData)
    (st : TxState) :
    TraceDelta ["chat_item_messages"] st (bulkInsertChatItemMessagesM env data st).1 := by
  unfold bulkInsertChatItemMessagesM
  exact traceDelta_comp (traceDelta_getTemplateRowM _ st _ _)
    (traceDelta_comp (traceDelta_logQuery _ _ _)
      (@traceDelta_execChunks "chat_item_messages" _ (by decide) env _ _))

theorem traceDelta_bulkInsertMsgDeliveriesM (env : Env) (data : BulkInsertData) (st : TxState) :
    TraceDelta ["msg_deliveries"] st (bulkInsertMsgDeliveriesM env data st).1 := by
  unfold bulkInsertMsgDeliveriesM
  exact traceDelta_comp (traceDelta_getTemplateRowM _ st _ _)
    (traceDelta_comp (traceDelta_logQuery _ _ _)
      (@traceDelta_execChunks "msg_deliveries" _ (by decide) env _ _))

theorem traceDelta_reactionsOfMsg (env : Env) (contactID : Int) (msgData : MessageInsertData) :
    ∀ (reactions : List UniversalReaction) (counter : Int) (st : TxState),
      TraceDelta ["chat_item_reactions"] st
        (reactionsOfMsg env contactID msgData reactions counter st).1 := by
  intro reactions
  induction reactions with
  | nil => intro counter st; exact traceDelta_refl _ st
  | cons reaction rest ih =>
    intro counter st
    unfold reactionsOfMsg
    rcases hE : execInsert env "chat_item_reactions"
        [reactionRow contactID counter msgData reaction] st with ⟨st', r⟩
    have hd : TraceDelta ["chat_item_reactions"] st st' := by
      have := @traceDelta_execInsert "chat_item_reactions" ["chat_item_reactions"]
        (by decide) env
        [reactionRow contactID counter msgData reaction] st
      rw [hE] at this
      exact this
    cases r with
    | ok u => exact traceDelta_comp hd (ih _ st')
    | error e => exact hd

theorem traceDelta_reactionsLoop (env : Env) (contactID : Int) :
    ∀ (msgs : List MessageInsertData) (counter : Int) (st : TxState),
      TraceDelta ["chat_item_reactions"] st
        (reactionsLoop env contactID msgs counter st).1 := by
  intro msgs
  induction msgs with
  | nil => intro counter st; exact traceDelta_refl _ st
  | cons md rest ih =>
    intro counter st
    unfold reactionsLoop
    rcases hE : reactionsOfMsg env contactID md md.message.reactions counter st
      with ⟨st', counter', r⟩
    have hd : TraceDelta ["chat_item_reactions"] st st' := by
      have := traceDelta_reactionsOfMsg env contactID md md.message.reactions counter st
      rw [hE] at this
      exact this
    cases r with
    | ok u => exact traceDelta_comp hd (ih counter' st')
    | error e => exact hd

theorem traceDelta_bulkInsertReactionsM (env : Env) (contactID : Int) (data : BulkInsertData)
    (st : TxState) :
    TraceDelta ["chat_item_reactions"] st (bulkInsertReactionsM env contactID data st).1 := by
  unfold bulkInsertReactionsM
  exact traceDelta_comp (traceDelta_logQuery _ _ _) (traceDelta_reactionsLoop env contactID _ _ _)

/-- Counterexample to C8 as stated: for a batch with one attachment-bearing
message, the INSERT order is messages, then the attachment's file and
transfer rows, then the chat-item row, then link, then delivery rows — the
file rows are executed during the chat-items step, BEFORE the link and
delivery rows, not after the delivery rows as the claim orders them. -/
theorem C8_files_before_deliveries_counterexample :
    execTables (bulkInsertUniversalMessagesM envOk emptyTables [msgFileAtt] 1 "dir" 7 "sx").2 =
      ["messages", "files", "rcv_files", "chat_items", "chat_item_messages",
        "msg_deliveries"] := by
  rfl

/-- C8 (amended, proved): in every batch that commits, the INSERT statements
are ordered in five phases: messages-table inserts first; then the
chat-items step, during which each message's attachment file and transfer
rows are interleaved (immediately before their chunk's chat-items insert);
then the link-table inserts; then the delivery inserts; then the reaction
inserts — and the commit happens only after all of them (the model returns
the committed tables only on this path). -/
theorem C8_table_order_amended (env : Env) (db : Tables) (msgs : List UniversalMessage)
    (startID : Int) (jsonDir : String) (contactID : Int) (sfd : String) (t : Tables)
    (tr : List Event)
    (h : bulkInsertUniversalMessagesM env db msgs startID jsonDir contactID sfd = (.ok t, tr)) :
    ∃ e₁ e₂ e₃ e₄ e₅,
      execTables tr = e₁ ++ e₂ ++ e₃ ++ e₄ ++ e₅
      ∧ (∀ x ∈ e₁, x = "messages")
      ∧ (∀ x ∈ e₂, x ∈ (["files", "snd_files", "rcv_files", "chat_items"] : List String))
      ∧ (∀ x ∈ e₃, x = "chat_item_messages")
      ∧ (∀ x ∈ e₄, x = "msg_deliveries")
      ∧ (∀ x ∈ e₅, x = "chat_item_reactions") := by
  unfold bulkInsertUniversalMessagesM at h
  dsimp only at h
  rcases hE1 : bulkInsertMessagesM env jsonDir
      (mkBulkData msgs startID (coalesceMax0 db.chatItems "chat_item_id"))
      { tables := db, trace := [.query "max chat_items chat_item_id"], execCount := 0 }
    with ⟨st1, r1⟩
  rw [hE1] at h
  cases r1 with
  | error e => simp at h
  | ok u1 =>
  dsimp only at h
  rcases hE2 : bulkInsertChatItemsM env jsonDir contactID sfd
      (mkBulkData msgs startID (coalesceMax0 db.chatItems "chat_item_id")) st1
    with ⟨st2, r2⟩
  rw [hE2] at h
  cases r2 with
  | error e => simp at h
  | ok u2 =>
  dsimp only at h
  rcases hE3 : bulkInsertChatItemMessagesM env
      (mkBulkData msgs startID (coalesceMax0 db.chatItems "chat_item_id")) st2
    with ⟨st3, r3⟩
  rw [hE3] at h
  cases r3 with
  | error e => simp at h
  | ok u3 =>
  dsimp only at h
  rcases hE4 : bulkInsertMsgDeliveriesM env
      (mkBulkData msgs startID (coalesceMax0 db.chatItems "chat_item_id")) st3
    with ⟨st4, r4⟩
  rw [hE4] at h
  cases r4 with
  | error e => simp at h
  | ok u4 =>
  dsimp only at h
  rcases hE5 : bulkInsertReactionsM env contactID
      (mkBulkData msgs startID (coalesceMax0 db.chatItems "chat_item_id")) st4
    with ⟨st5, r5⟩
  rw [hE5] at h
  cases r5 with
  | error e => simp at h
  | ok u5 =>
  dsimp only at h
  by_cases hc : env.commitFails
  · rw [if_pos hc] at h
    simp at h
  · rw [if_neg hc] at h
    have htr : tr = st5.trace := (Prod.mk.injEq _ _ _ _ ▸ h).2.symm
    have d1 := traceDelta_bulkInsertMessagesM env jsonDir
      (mkBulkData msgs startID (coalesceMax0 db.chatItems "chat_item_id"))
      { tables := db, trace := [.query "max chat_items chat_item_id"], execCount := 0 }
    rw [hE1] at d1
    have d2 := traceDelta_bulkInsertChatItemsM env jsonDir contactID sfd
      (mkBulkData msgs startID (coalesceMax0 db.chatItems "chat_item_id")) st1
    rw [hE2] at d2
    have d3 := traceDelta_bulkInsertChatItemMessagesM env
      (mkBulkData msgs startID (coalesceMax0 db.chatItems "chat_item_id")) st2
    rw [hE3] at d3
    have d4 := traceDelta_bulkInsertMsgDeliveriesM env
      (mkBulkData msgs startID (coalesceMax0 db.chatItems "chat_item_id")) st3
    rw [hE4] at d4
    have d5 := traceDelta_bulkInsertReactionsM env contactID
      (mkBulkData msgs startID (coalesceMax0 db.chatItems "chat_item_id")) st4
    rw [hE5] at d5
    obtain ⟨Δ1, he1, hm1⟩ := d1
    obtain ⟨Δ2, he2, hm2⟩ := d2
    obtain ⟨Δ3, he3, hm3⟩ := d3
    obtain ⟨Δ4, he4, hm4⟩ := d4
    obtain ⟨Δ5, he5, hm5⟩ := d5
    refine ⟨execTables Δ1, execTables Δ2, execTables Δ3, execTables Δ4, execTables Δ5,
      ?_, ?_, ?_, ?_, ?_, ?_⟩
    · rw [htr, he5, he4, he3, he2, he1]
      simp only [execTables_append, List.append_assoc]
      have : execTables [Event.query "max chat_items chat_item_id"] = [] := rfl
      simp [this]
    · intro x hx
      simpa using hm1 x hx
    · intro x hx
      exact hm2 x hx
    · intro x hx
      simpa using hm3 x hx
    · intro x hx
      simpa using hm4 x hx
    · intro x hx
      simpa using hm5 x hx

/-- Witness for C8: the amended order, applied to the concrete one-message
batch of the counterexample (which commits successfully). -/
theorem C8_table_order_amended_witness :
    ∃ e₁ e₂ e₃ e₄ e₅,
      execTables (bulkInsertUniversalMessagesM envOk emptyTables [msgFileAtt] 1 "dir" 7 "sx").2 =
        e₁ ++ e₂ ++ e₃ ++ e₄ ++ e₅
      ∧ (∀ x ∈ e₁, x = "messages")
      ∧ (∀ x ∈ e₂, x ∈ (["files", "snd_files", "rcv_files", "chat_items"] : List String))
      ∧ (∀ x ∈ e₃, x = "chat_item_messages")
      ∧ (∀ x ∈ e₄, x = "msg_deliveries")
      ∧ (∀ x ∈ e₅, x = "chat_item_reactions") :=
  C8_table_order_amended envOk emptyTables [msgFileAtt] 1 "dir" 7 "sx"
    (runBatchVisible envOk emptyTables [msgFileAtt] 1 "dir" 7 "sx")
    (bulkInsertUniversalMessagesM envOk emptyTables [msgFileAtt] 1 "dir" 7 "sx").2
    (by rfl)

/-! ## C5: when the key allocator queries the database -/

theorem queryCount_append (tag : String) (t₁ t₂ : List Event) :
    queryCount tag (t₁ ++ t₂) = queryCount tag t₁ + queryCount tag t₂ := by
  simp [queryCount, List.filter_append]

theorem queryCount_logQuery_self (tag : String) (st : TxState) :
    queryCount tag (st.logQuery tag).trace = queryCount tag st.trace + 1 := by
  simp [TxState.logQuery, queryCount_append, queryCount]

theorem queryCount_logQuery_other {tag tag' : String} (h : tag' ≠ tag) (st : TxState) :
    queryCount tag (st.logQuery tag').trace = queryCount tag st.trace := by
  simp [TxState.logQuery, queryCount_append, queryCount, h]

theorem queryCount_execInsert (tag : String) (env : Env) (table : String) (rows : List Row)
    (st : TxState) :
    queryCount tag (execInsert env table rows st).1.trace = queryCount tag st.trace := by
  rw [execInsert_trace, queryCount_append]
  simp [queryCount]

theorem queryCount_execChunks (tag : String) (env : Env) (table : String) :
    ∀ (chunked : List (List Row)) (st : TxState),
      queryCount tag (execChunks env table chunked st).1.trace = queryCount tag st.trace := by
  intro chunked
  induction chunked with
  | nil => intro st; rfl
  | cons c cs ih =>
    intro st
    unfold execChunks
    rcases hE : execInsert env table c st with ⟨st', r⟩
    have h0 : queryCount tag st'.trace = queryCount tag st.trace := by
      have := queryCount_execInsert tag env table c st
      rwa [hE] at this
    cases r with
    | ok u => rw [ih st', h0]
    | error e => exact h0

theorem queryCount_getTemplateRowM {tag : String} (st : TxState) (table idColumn : String)
    (h : "template " ++ table ≠ tag) :
    queryCount tag (getTemplateRowM st table idColumn).2.trace = queryCount tag st.trace := by
  rw [getTemplateRowM_state]
  exact queryCount_logQuery_other h st

/-- `insertSndFile`/`insertRcvFile` issue no `MAX(file_id)` query. -/
theorem queryCount_insertSndFileM_nf (env : Env) (fileID : Int) (st : TxState) :
    queryCount "nextkey files file_id" (insertSndFileM env fileID st).1.trace =
      queryCount "nextkey files file_id" st.trace := by
  unfold insertSndFileM
  dsimp only
  rw [queryCount_execInsert, queryCount_logQuery_other (by decide),
    queryCount_getTemplateRowM st _ _ (by decide)]

theorem queryCount_insertRcvFileM_nf (env : Env) (fileID : Int) (st : TxState) :
    queryCount "nextkey files file_id" (insertRcvFileM env fileID st).1.trace =
      queryCount "nextkey files file_id" st.trace := by
  unfold insertRcvFileM
  dsimp only
  rw [queryCount_execInsert, queryCount_getTemplateRowM st _ _ (by decide)]

/-- Every `insertFileAttachment` call on an existing file re-issues the
`COALESCE(MAX(file_id), 0) + 1` query exactly once, whatever happens
afterwards. -/
theorem queryCount_insertFileAttachmentM (env : Env) (jsonDir simplexFilesDir : String)
    (contactID : Int) (attachment : UniversalAttachment) (chatItemID : Int) (isSent : Bool)
    (messageType : String) (st : TxState)
    (hfe : env.fileExists (pathJoin jsonDir attachment.url) = true) :
    queryCount "nextkey files file_id"
        (insertFileAttachmentM env jsonDir simplexFilesDir contactID attachment chatItemID
          isSent messageType st).1.trace =
      queryCount "nextkey files file_id" st.trace + 1 := by
  have hbase : queryCount "nextkey files file_id"
      ((getTemplateRowM st "files" "file_id").2.logQuery "nextkey files file_id").trace =
      queryCount "nextkey files file_id" st.trace + 1 := by
    rw [queryCount_logQuery_self, queryCount_getTemplateRowM st _ _ (by decide)]
  unfold insertFileAttachmentM
  dsimp only
  rw [if_neg (by simp [hfe])]
  by_cases hcp : env.copyOk (pathJoin jsonDir attachment.url)
  case neg =>
    rw [if_pos (by simp [hcp])]
    exact hbase
  case pos =>
    rw [if_neg (by simp [hcp])]
    split
    case h_1 st' e heq =>
      have := queryCount_execInsert "nextkey files file_id" env "files"
        [(env.schema "files").zip
          (buildRowValues
            (filesOverrideFields env contactID attachment chatItemID
              (coalesceMax0 (getTemplateRowM st "files" "file_id").2.tables.files "file_id" + 1)
              (if messageType = "video" then ("snd_stored", "local")
               else if messageType = "image" ∨ messageType = "voice" then
                 ((if isSent then "snd_complete" else "rcv_complete"), "xftp")
               else ((if isSent then "snd_complete" else "rcv_complete"), "smp")).1
              (if messageType = "video" then ("snd_stored", "local")
               else if messageType = "image" ∨ messageType = "voice" then
                 ((if isSent then "snd_complete" else "rcv_complete"), "xftp")
               else ((if isSent then "snd_complete" else "rcv_complete"), "smp")).2)
            (getTemplateRowM st "files" "file_id").1 (env.schema "files"))]
        ((getTemplateRowM st "files" "file_id").2.logQuery "nextkey files file_id")
      rw [heq] at this
      dsimp only
      rw [this, hbase]
    case h_2 st' u heq =>
      have hst' : queryCount "nextkey files file_id" st'.trace =
          queryCount "nextkey files file_id" st.trace + 1 := by
        have := queryCount_execInsert "nextkey files file_id" env "files"
          [(env.schema "files").zip
            (buildRowValues
              (filesOverrideFields env contactID attachment chatItemID
                (coalesceMax0 (getTemplateRowM st "files" "file_id").2.tables.files "file_id" + 1)
                (if messageType = "video" then ("snd_stored", "local")
                 else if messageType = "image" ∨ messageType = "voice" then
                   ((if isSent then "snd_complete" else "rcv_complete"), "xftp")
                 else ((if isSent then "snd_complete" else "rcv_complete"), "smp")).1
                (if messageType = "video" then ("snd_stored", "local")
                 else if messageType = "image" ∨ messageType = "voice" then
                   ((if isSent then "snd_complete" else "rcv_complete"), "xftp")
                 else ((if isSent then "snd_complete" else "rcv_complete"), "smp")).2)
              (getTemplateRowM st "files" "file_id").1 (env.schema "files"))]
          ((getTemplateRowM st "files" "file_id").2.logQuery "nextkey files file_id")
        rw [heq] at this
        rw [this, hbase]
      by_cases hv : messageType = "video"
      case pos =>
        rw [if_neg (by simp [hv])]
        exact hst'
      case neg =>
        rw [if_pos (by simp [hv])]
        split
        case h_1 st'' e heq₂ =>
          by_cases hs : isSent
          · rw [if_pos (by simp [hs])] at heq₂
            have := queryCount_insertSndFileM_nf env
              (coalesceMax0 (getTemplateRowM st "files" "file_id").2.tables.files "file_id" + 1)
              st'
            rw [heq₂] at this
            dsimp only
            rw [this, hst']
          · rw [if_neg (by simp [hs])] at heq₂
            have := queryCount_insertRcvFileM_nf env
              (coalesceMax0 (getTemplateRowM st "files" "file_id").2.tables.files "file_id" + 1)
              st'
            rw [heq₂] at this
            dsimp only
            rw [this, hst']
        case h_2 st'' u₂ heq₂ =>
          by_cases hs : isSent
          · rw [if_pos (by simp [hs])] at heq₂
            have := queryCount_insertSndFileM_nf env
              (coalesceMax0 (getTemplateRowM st "files" "file_id").2.tables.files "file_id" + 1)
              st'
            rw [heq₂] at this
            dsimp only
            rw [this, hst']
          · rw [if_neg (by simp [hs])] at heq₂
            have := queryCount_insertRcvFileM_nf env
              (coalesceMax0 (getTemplateRowM st "files" "file_id").2.tables.files "file_id" + 1)
              st'
            rw [heq₂] at this
            dsimp only
            rw [this, hst']

theorem queryCount_chatItemRowStep (env : Env) (jsonDir simplexFilesDir : String)
    (contactID : Int) (templateRow : List (String × Value)) (columns : List String)
    (md : MessageInsertData) (st : TxState) (hfe : ∀ p, env.fileExists p = true) :
    queryCount "nextkey files file_id"
        (chatItemRowStep env jsonDir simplexFilesDir contactID templateRow columns md st).1.trace =
      queryCount "nextkey files file_id" st.trace +
        (if md.message.attachments.isEmpty then 0 else 1) := by
  unfold chatItemRowStep
  dsimp only
  rcases hatt : md.message.attachments with _ | ⟨attachment, rest⟩
  · simp
  · simp only [List.isEmpty_cons, if_neg, Bool.false_eq_true, not_false_eq_true, if_false]
    exact queryCount_insertFileAttachmentM env jsonDir simplexFilesDir contactID attachment
      md.chatItemID md.message.isSent md.message.messageType st (hfe _)

theorem queryCount_chatItemsChunkRows (env : Env) (jsonDir simplexFilesDir : String)
    (contactID : Int) (templateRow : List (String × Value)) (columns : List String)
    (hfe : ∀ p, env.fileExists p = true) :
    ∀ (chunk : List MessageInsertData) (st : TxState),
      queryCount "nextkey files file_id"
          (chatItemsChunkRows env jsonDir simplexFilesDir contactID templateRow columns
            chunk st).1.trace =
        queryCount "nextkey files file_id" st.trace + countAttachmentMsgs chunk := by
  intro chunk
  induction chunk with
  | nil => intro st; simp [chatItemsChunkRows, countAttachmentMsgs]
  | cons md rest ih =>
    intro st
    unfold chatItemsChunkRows
    dsimp only
    rw [ih, queryCount_chatItemRowStep env jsonDir simplexFilesDir contactID templateRow
      columns md st hfe]
    simp only [countAttachmentMsgs, List.countP_cons]
    rcases hatt : md.message.attachments with _ | ⟨attachment, rest'⟩ <;> simp [hatt] <;> omega

theorem queryCount_chatItemsChunkLoop (env : Env) (jsonDir simplexFilesDir : String)
    (contactID : Int) (templateRow : List (String × Value)) (columns : List String)
    (hfe : ∀ p, env.fileExists p = true) (hex : ∀ n, env.execFails n = false) :
    ∀ (chunked : List (List MessageInsertData)) (st : TxState),
      queryCount "nextkey files file_id"
          (chatItemsChunkLoop env jsonDir simplexFilesDir contactID templateRow columns
            chunked st).1.trace =
        queryCount "nextkey files file_id" st.trace + countAttachmentMsgs chunked.flatten := by
  intro chunked
  induction chunked with
  | nil => intro st; simp [chatItemsChunkLoop, countAttachmentMsgs]
  | cons c cs ih =>
    intro st
    unfold chatItemsChunkLoop
    dsimp only
    have hrows := queryCount_chatItemsChunkRows env jsonDir simplexFilesDir contactID
      templateRow columns hfe c st
    have hok := execInsert_ok env hex "chat_items"
      (chatItemsChunkRows env jsonDir simplexFilesDir contactID templateRow columns c st).2
      (chatItemsChunkRows env jsonDir simplexFilesDir contactID templateRow columns c st).1
    rcases hE : execInsert env "chat_items"
        (chatItemsChunkRows env jsonDir simplexFilesDir contactID templateRow columns c st).2
        (chatItemsChunkRows env jsonDir simplexFilesDir contactID templateRow columns c st).1
      with ⟨st', r⟩
    rw [hE] at hok
    cases r with
    | error e => simp at hok
    | ok u =>
      have hst' : queryCount "nextkey files file_id" st'.trace =
          queryCount "nextkey files file_id" st.trace + countAttachmentMsgs c := by
        have := queryCount_execInsert "nextkey files file_id" env "chat_items"
          (chatItemsChunkRows env jsonDir simplexFilesDir contactID templateRow columns c st).2
          (chatItemsChunkRows env jsonDir simplexFilesDir contactID templateRow columns c st).1
        rw [hE] at this
        dsimp only at this
        rw [this, hrows]
      rw [ih st', hst']
      simp only [countAttachmentMsgs, List.flatten_cons, List.countP_append]
      omega

/-- The reactions loop issues no queries at all. -/
theorem queryCount_reactionsOfMsg (tag : String) (env : Env) (contactID : Int)
    (msgData : MessageInsertData) :
    ∀ (reactions : List UniversalReaction) (counter : Int) (st : TxState),
      queryCount tag (reactionsOfMsg env contactID msgData reactions counter st).1.trace =
        queryCount tag st.trace := by
  intro reactions
  induction reactions with
  | nil => intro counter st; rfl
  | cons reaction rest ih =>
    intro counter st
    unfold reactionsOfMsg
    rcases hE : execInsert env "chat_item_reactions"
        [reactionRow contactID counter msgData reaction] st with ⟨st', r⟩
    have h0 : queryCount tag st'.trace = queryCount tag st.trace := by
      have := queryCount_execInsert tag env "chat_item_reactions"
        [reactionRow contactID counter msgData reaction] st
      rwa [hE] at this
    cases r with
    | ok u => rw [ih _ st', h0]
    | error e => exact h0

theorem queryCount_reactionsLoop (tag : String) (env : Env) (contactID : Int) :
    ∀ (msgs : List MessageInsertData) (counter : Int) (st : TxState),
      queryCount tag (reactionsLoop env contactID msgs counter st).1.trace =
        queryCount tag st.trace := by
  intro msgs
  induction msgs with
  | nil => intro counter st; rfl
  | cons md rest ih =>
    intro counter st
    unfold reactionsLoop
    rcases hE : reactionsOfMsg env contactID md md.message.reactions counter st
      with ⟨st', counter', r⟩
    have h0 : queryCount tag st'.trace = queryCount tag st.trace := by
      have := queryCount_reactionsOfMsg tag env contactID md md.message.reactions counter st
      rwa [hE] at this
    cases r with
    | ok u => rw [ih counter' st', h0]
    | error e => exact h0

/-- Counterexample to C5 as stated: a batch of two attachment-bearing
messages issues the files-table `MAX(file_id) + 1` query twice — once per
row, not once at the start of the batch. -/
theorem C5_files_requery_counterexample :
    queryCount "nextkey files file_id"
      (bulkInsertUniversalMessagesM envOk emptyTables [msgFileAtt, msgImage] 1 "dir" 7 "sx").2 =
      2 := by
  rfl

/-- C5 (amended, proved): the batched tables allocate their key base with a
single query at the start of the batch and then increment in memory —
`msg_deliveries.agent_msg_id` (one `MAX(agent_msg_id)` query, value
`base + 1 + index`), `chat_item_messages.rowid` (one query, value
`nextRowID + index`), `chat_item_reactions` (one query) — but the files
table's key is re-queried from the database once per inserted file row
(`insertFileAttachment` runs `COALESCE(MAX(file_id), 0) + 1` on every call):
in a batch whose files all exist and whose statements succeed, the query
runs once per attachment-bearing message. -/
theorem C5_key_allocation_amended :
    (∀ (env : Env) (data : BulkInsertData) (st : TxState),
        queryCount "max msg_deliveries agent_msg_id"
            (bulkInsertMsgDeliveriesM env data st).1.trace =
          queryCount "max msg_deliveries agent_msg_id" st.trace + 1)
    ∧ (∀ (base : Int) (idx : Nat) (md : MessageInsertData),
        mapLookup (msgDeliveriesOverrideFields base idx md) "agent_msg_id" =
          some (.int (base + 1 + idx)))
    ∧ (∀ (env : Env) (data : BulkInsertData) (st : TxState),
        queryCount "nextkey chat_item_messages rowid"
            (bulkInsertChatItemMessagesM env data st).1.trace =
          queryCount "nextkey chat_item_messages rowid" st.trace + 1)
    ∧ (∀ (nextRowID : Int) (idx : Nat) (md : MessageInsertData),
        mapLookup (chatItemMessagesOverrideFields nextRowID idx md) "rowid" =
          some (.int (nextRowID + idx)))
    ∧ (∀ (env : Env) (contactID : Int) (data : BulkInsertData) (st : TxState),
        queryCount "nextkey chat_item_reactions chat_item_reaction_id"
            (bulkInsertReactionsM env contactID data st).1.trace =
          queryCount "nextkey chat_item_reactions chat_item_reaction_id" st.trace + 1)
    ∧ (∀ (env : Env) (jsonDir : String) (contactID : Int) (sfd : String)
        (data : BulkInsertData) (st : TxState),
        (∀ p, env.fileExists p = true) → (∀ n, env.execFails n = false) →
        queryCount "nextkey files file_id"
            (bulkInsertChatItemsM env jsonDir contactID sfd data st).1.trace =
          queryCount "nextkey files file_id" st.trace + countAttachmentMsgs data.messages) := by
  refine ⟨?_, ?_, ?_, ?_, ?_, ?_⟩
  · intro env data st
    unfold bulkInsertMsgDeliveriesM
    dsimp only
    rw [queryCount_execChunks, queryCount_logQuery_self,
      queryCount_getTemplateRowM st _ _ (by decide)]
  · intro base idx md
    rfl
  · intro env data st
    unfold bulkInsertChatItemMessagesM
    dsimp only
    rw [queryCount_execChunks, queryCount_logQuery_self,
      queryCount_getTemplateRowM st _ _ (by decide)]
  · intro nextRowID idx md
    rfl
  · intro env contactID data st
    unfold bulkInsertReactionsM
    dsimp only
    rw [queryCount_reactionsLoop, queryCount_logQuery_self]
  · intro env jsonDir contactID sfd data st hfe hex
    unfold bulkInsertChatItemsM
    dsimp only
    rw [queryCount_chatItemsChunkLoop env jsonDir sfd contactID _ _ hfe hex, chunks_flatten,
      queryCount_getTemplateRowM st _ _ (by decide)]

/-- Witness for C5: the amended behaviour at a concrete two-message batch
(the delivery key is queried once; the files key once per attachment row). -/
theorem C5_key_allocation_amended_witness :
    queryCount "max msg_deliveries agent_msg_id"
        (bulkInsertMsgDeliveriesM envOk { messages := [msgDataFileAtt] } stEmpty).1.trace =
      queryCount "max msg_deliveries agent_msg_id" stEmpty.trace + 1
    ∧ queryCount "nextkey files file_id"
        (bulkInsertChatItemsM envOk "dir" 7 "sx"
          { messages := [msgDataFileAtt] } stEmpty).1.trace =
      queryCount "nextkey files file_id" stEmpty.trace +
        countAttachmentMsgs [msgDataFileAtt] :=
  ⟨C5_key_allocation_amended.1 envOk _ _,
    C5_key_allocation_amended.2.2.2.2.2 envOk "dir" 7 "sx" _ _ (fun _ => rfl) (fun _ => rfl)⟩

/-! ## C6: surrogate keys never collide with pre-existing rows -/

theorem maxColOpt_append (a b : List Row) (col : String) :
    maxColOpt (a ++ b) col =
      match maxColOpt a col, maxColOpt b col with
      | some m, some n => some (max m n)
      | some m, none => some m
      | none, o => o := by
  induction a with
  | nil =>
    simp only [List.nil_append, maxColOpt]
  | cons r rest ih =>
    show maxColOpt (r :: (rest ++ b)) col = _
    simp only [maxColOpt]
    rw [ih]
    cases colInt r col <;> cases maxColOpt rest col <;> cases maxColOpt b col <;>
      first
      | rfl
      | simp [max_assoc]

theorem maxColOpt_mem {rows : List Row} {col : String} {m : Int}
    (h : maxColOpt rows col = some m) : m ∈ colIds rows col := by
  induction rows with
  | nil => simp [maxColOpt] at h
  | cons r rest ih =>
    simp only [maxColOpt] at h
    simp only [colIds, List.filterMap_cons]
    cases hc : colInt r col with
    | none =>
      rw [hc] at h
      simpa [colIds] using ih h
    | some n =>
      rw [hc] at h
      cases hm : maxColOpt rest col with
      | none =>
        rw [hm] at h
        simp only [Option.some.injEq] at h
        simp [← h]
      | some m' =>
        rw [hm] at h
        simp only [Option.some.injEq] at h
        rcases max_cases n m' with ⟨he, _⟩ | ⟨he, _⟩
        · rw [he] at h
          simp [← h]
        · rw [he] at h
          have := ih (h ▸ hm)
          simpa [colIds] using Or.inr this

theorem le_maxColOpt_of_mem {rows : List Row} {col : String} {k : Int}
    (h : k ∈ colIds rows col) : ∃ m, maxColOpt rows col = some m ∧ k ≤ m := by
  induction rows with
  | nil => simp [colIds] at h
  | cons r rest ih =>
    simp only [colIds, List.filterMap_cons] at h
    cases hc : colInt r col with
    | none =>
      rw [hc] at h
      obtain ⟨m, hm, hk⟩ := ih h
      cases hcc : colInt r col with
      | none => exact ⟨m, by simp [maxColOpt, hcc, hm], hk⟩
      | some n => rw [hcc] at hc; cases hc
    | some n =>
      rw [hc] at h
      rcases List.mem_cons.mp h with he | hmem
      · subst he
        cases hm : maxColOpt rest col with
        | none => exact ⟨k, by simp [maxColOpt, hc, hm], le_refl k⟩
        | some m => exact ⟨max k m, by simp [maxColOpt, hc, hm], le_max_left _ _⟩
      · obtain ⟨m, hm, hk⟩ := ih hmem
        exact ⟨max n m, by simp [maxColOpt, hc, hm], le_trans hk (le_max_right _ _)⟩

/-- Every key present in a table is at most `COALESCE(MAX(col), 0)` when it
is positive, and in general at most the reported max. -/
theorem le_coalesceMax0_of_mem {rows : List Row} {col : String} {k : Int}
    (h : k ∈ colIds rows col) : k ≤ coalesceMax0 rows col := by
  obtain ⟨m, hm, hk⟩ := le_maxColOpt_of_mem h
  simpa [coalesceMax0, hm] using hk

/-- Appending rows whose keys all exceed the current max cannot lower
`COALESCE(MAX(col), 0)`. -/
theorem coalesceMax0_append_ge (a b : List Row) (col : String)
    (hb : ∀ k ∈ colIds b col, coalesceMax0 a col < k) :
    coalesceMax0 a col ≤ coalesceMax0 (a ++ b) col := by
  unfold coalesceMax0
  rw [maxColOpt_append]
  cases ha : maxColOpt a col with
  | none =>
    cases hbb : maxColOpt b col with
    | none => simp [coalesceMax0, ha]
    | some n =>
      have := hb n (maxColOpt_mem hbb)
      simp only [coalesceMax0, ha, Option.getD_none] at this
      dsimp only
      simp only [Option.getD_none, Option.getD_some]
      omega
  | some m =>
    cases hbb : maxColOpt b col with
    | none => simp [coalesceMax0, ha]
    | some n =>
      simp only [coalesceMax0, ha, Option.getD_some]
      exact le_max_left m n

theorem keysFrom_pairwise (base : Int) (n : Nat) : (keysFrom base n).Pairwise (· < ·) := by
  unfold keysFrom
  refine List.Pairwise.map _ ?_ (List.pairwise_lt_range n)
  intro a b hab
  omega

theorem keysFrom_mem {base k : Int} {n : Nat} (h : k ∈ keysFrom base n) :
    base ≤ k ∧ k < base + n := by
  unfold keysFrom at h
  obtain ⟨i, hi, he⟩ := List.mem_map.mp h
  have := List.mem_range.mp hi
  omega

theorem keysFrom_append (base : Int) (n₁ n₂ : Nat) :
    keysFrom base n₁ ++ keysFrom (base + n₁) n₂ = keysFrom base (n₁ + n₂) := by
  unfold keysFrom
  rw [List.range_add, List.map_append, List.map_map]
  congr 1
  apply List.map_congr_left
  intro i _
  simp
  omega

theorem keysFrom_zero (base : Int) : keysFrom base 0 = [] := rfl

theorem keysFrom_succ (base : Int) (n : Nat) :
    keysFrom base (n + 1) = base :: keysFrom (base + 1) n := by
  unfold keysFrom
  rw [List.range_succ_eq_map]
  simp only [List.map_cons, List.map_map, Nat.cast_zero, add_zero]
  congr 1
  apply List.map_congr_left
  intro i _
  simp only [Function.comp_apply, Nat.cast_succ]
  ring

/-- `Tables.append` at each concrete table name. -/
theorem tablesAppend_messages (t : Tables) (rows : List Row) :
    t.append "messages" rows = { t with messages := t.messages ++ rows } := rfl

theorem tablesAppend_chatItems (t : Tables) (rows : List Row) :
    t.append "chat_items" rows = { t with chatItems := t.chatItems ++ rows } := rfl

theorem tablesAppend_chatItemMessages (t : Tables) (rows : List Row) :
    t.append "chat_item_messages" rows =
      { t with chatItemMessages := t.chatItemMessages ++ rows } := rfl

theorem tablesAppend_msgDeliveries (t : Tables) (rows : List Row) :
    t.append "msg_deliveries" rows = { t with msgDeliveries := t.msgDeliveries ++ rows } := rfl

theorem tablesAppend_files (t : Tables) (rows : List Row) :
    t.append "files" rows = { t with files := t.files ++ rows } := rfl

theorem tablesAppend_sndFiles (t : Tables) (rows : List Row) :
    t.append "snd_files" rows = { t with sndFiles := t.sndFiles ++ rows } := rfl

theorem tablesAppend_rcvFiles (t : Tables) (rows : List Row) :
    t.append "rcv_files" rows = { t with rcvFiles := t.rcvFiles ++ rows } := rfl

theorem tablesAppend_reactions (t : Tables) (rows : List Row) :
    t.append "chat_item_reactions" rows =
      { t with chatItemReactions := t.chatItemReactions ++ rows } := rfl

theorem tablesAppend_append (t : Tables) (n : String) (a b : List Row) :
    (t.append n a).append n b = t.append n (a ++ b) := by
  unfold Tables.append
  split_ifs <;> simp [List.append_assoc]

theorem logQuery_tables (st : TxState) (tag : String) : (st.logQuery tag).tables = st.tables :=
  rfl

theorem getTemplateRowM_tables (st : TxState) (table idColumn : String) :
    (getTemplateRowM st table idColumn).2.tables = st.tables := by
  rw [getTemplateRowM_state]
  rfl

theorem execInsert_tables_ok (env : Env) (hex : ∀ n, env.execFails n = false)
    (table : String) (rows : List Row) (st : TxState) :
    (execInsert env table rows st).1.tables = st.tables.append table rows := by
  simp [execInsert, hex st.execCount]

theorem execChunks_tables_ok (env : Env) (hex : ∀ n, env.execFails n = false) (table : String) :
    ∀ (chunked : List (List Row)) (st : TxState),
      (execChunks env table chunked st).1.tables = st.tables.append table chunked.flatten := by
  intro chunked
  induction chunked with
  | nil =>
    intro st
    show st.tables = _
    cases hT : st.tables.append table [] with
    | mk =>
      unfold Tables.append at hT ⊢
      split_ifs <;> simp
  | cons c cs ih =>
    intro st
    unfold execChunks
    have hok := execInsert_ok env hex table c st
    have htb := execInsert_tables_ok env hex table c st
    rcases hE : execInsert env table c st with ⟨st', r⟩
    rw [hE] at hok htb
    cases r with
    | error e => simp at hok
    | ok u =>
      rw [ih st', htb, List.flatten_cons, ← tablesAppend_append]

/-- Looking a key up in a row built as `columns.zip (buildRowValues o t columns)`. -/
theorem mapLookup_zip_map (columns : List String) (f : String → Value) (key : String) :
    mapLookup (columns.zip (columns.map f)) key =
      if key ∈ columns then some (f key) else none := by
  induction columns with
  | nil => simp [mapLookup]
  | cons c cs ih =>
    simp only [List.map_cons, List.zip_cons_cons, mapLookup]
    by_cases h : key = c
    · simp [h]
    · simp only [h, if_false, List.mem_cons]
      rw [show List.zipWith Prod.mk cs (List.map f cs) = cs.zip (List.map f cs) from rfl, ih]
      by_cases hm : key ∈ cs <;> simp [hm, h]

theorem colInt_zip_buildRowValues (columns : List String)
    (o t : List (String × Value)) (key : String) (hk : key ∈ columns) (v : Int)
    (hov : mapLookup o key = some (.int v)) :
    colInt (columns.zip (buildRowValues o t columns)) key = some v := by
  unfold colInt buildRowValues
  rw [mapLookup_zip_map, if_pos hk]
  unfold mergeColumnValue
  rw [hov]

/-- `colIds` of rows built by mapping a row constructor whose key column is
determined. -/
theorem colIds_map_rows {α : Type} (l : List α) (rowfn : α → Row) (col : String)
    (g : α → Int) (h : ∀ x ∈ l, colInt (rowfn x) col = some (g x)) :
    colIds (l.map rowfn) col = l.map g := by
  induction l with
  | nil => rfl
  | cons x xs ih =>
    simp only [List.map_cons, colIds, List.filterMap_cons, h x (by simp)]
    have := ih (fun y hy => h y (by simp [hy]))
    simpa [colIds] using this

theorem colIds_append (a b : List Row) (col : String) :
    colIds (a ++ b) col = colIds a col ++ colIds b col := by
  simp [colIds]

/-- Index-arithmetic helper: mapping an index function over `l.enum`. -/
theorem enum_map_index {α β : Type} (l : List α) (f : Nat → β) :
    l.enum.map (fun p => f p.1) = (List.range l.length).map f := by
  have h1 : l.enum.map (fun p => f p.1) = (l.enum.map Prod.fst).map f := by
    rw [List.map_map]
    rfl
  rw [h1, List.enum_map_fst]

/-- The messages step appends exactly the batch's rows to the messages table
(and touches nothing else) when every statement succeeds. -/
theorem bulkInsertMessagesM_tables (env : Env) (hex : ∀ n, env.execFails n = false)
    (jsonDir : String) (data : BulkInsertData) (st : TxState) :
    (bulkInsertMessagesM env jsonDir data st).1.tables =
      st.tables.append "messages"
        (data.messages.map (fun md =>
          (env.schema "messages").zip
            (buildRowValues (messagesOverrideFields env jsonDir md)
              (getTemplateRowM st "messages" "message_id").1 (env.schema "messages")))) := by
  unfold bulkInsertMessagesM
  dsimp only
  rw [execChunks_tables_ok env hex, chunks_flatten, getTemplateRowM_tables]

theorem bulkInsertChatItemMessagesM_tables (env : Env) (hex : ∀ n, env.execFails n = false)
    (data : BulkInsertData) (st : TxState) :
    (bulkInsertChatItemMessagesM env data st).1.tables =
      st.tables.append "chat_item_messages"
        (data.messages.enum.map (fun p =>
          (env.schema "chat_item_messages").zip
            (buildRowValues
              (chatItemMessagesOverrideFields
                (coalesceMax0 st.tables.chatItemMessages "rowid" + 1) p.1 p.2)
              (getTemplateRowM st "chat_item_messages" "rowid").1
              (env.schema "chat_item_messages")))) := by
  unfold bulkInsertChatItemMessagesM
  dsimp only
  rw [execChunks_tables_ok env hex, chunks_flatten, logQuery_tables, getTemplateRowM_tables]

theorem bulkInsertMsgDeliveriesM_tables (env : Env) (hex : ∀ n, env.execFails n = false)
    (data : BulkInsertData) (st : TxState) :
    (bulkInsertMsgDeliveriesM env data st).1.tables =
      st.tables.append "msg_deliveries"
        (data.messages.enum.map (fun p =>
          (env.schema "msg_deliveries").zip
            (buildRowValues
              (msgDeliveriesOverrideFields
                (coalesceMax0 st.tables.msgDeliveries "agent_msg_id") p.1 p.2)
              (getTemplateRowM st "msg_deliveries" "msg_delivery_id").1
              (env.schema "msg_deliveries")))) := by
  unfold bulkInsertMsgDeliveriesM
  dsimp only
  rw [execChunks_tables_ok env hex, chunks_flatten, logQuery_tables, getTemplateRowM_tables]

/-- The inner reaction loop appends rows keyed `counter, counter + 1, ...`
and returns the advanced counter. -/
theorem reactionsOfMsg_tables (env : Env) (hex : ∀ n, env.execFails n = false)
    (contactID : Int) (msgData : MessageInsertData) :
    ∀ (reactions : List UniversalReaction) (counter : Int) (st : TxState),
      ∃ new,
        (reactionsOfMsg env contactID msgData reactions counter st).1.tables =
            st.tables.append "chat_item_reactions" new
        ∧ colIds new "chat_item_reaction_id" = keysFrom counter reactions.length
        ∧ (reactionsOfMsg env contactID msgData reactions counter st).2.1 =
            counter + reactions.length := by
  intro reactions
  induction reactions with
  | nil =>
    intro counter st
    refine ⟨[], ?_, rfl, by simp [reactionsOfMsg]⟩
    show st.tables = _
    rw [tablesAppend_reactions]
    simp
  | cons reaction rest ih =>
    intro counter st
    unfold reactionsOfMsg
    have hok := execInsert_ok env hex "chat_item_reactions"
      [reactionRow contactID counter msgData reaction] st
    have htb := execInsert_tables_ok env hex "chat_item_reactions"
      [reactionRow contactID counter msgData reaction] st
    rcases hE : execInsert env "chat_item_reactions"
        [reactionRow contactID counter msgData reaction] st with ⟨st', r⟩
    rw [hE] at hok htb
    cases r with
    | error e => simp at hok
    | ok u =>
      obtain ⟨new, hn1, hn2, hn3⟩ := ih (counter + 1) st'
      refine ⟨reactionRow contactID counter msgData reaction :: new, ?_, ?_, ?_⟩
      · rw [hn1, htb]
        rw [show reactionRow contactID counter msgData reaction :: new =
          [reactionRow contactID counter msgData reaction] ++ new from rfl,
          ← tablesAppend_append]
      · simp only [colIds, List.filterMap_cons]
        have hkey : colInt (reactionRow contactID counter msgData reaction)
            "chat_item_reaction_id" = some counter := rfl
        rw [hkey]
        rw [show (reaction :: rest).length = rest.length + 1 from rfl, keysFrom_succ]
        simpa [colIds] using hn2
      · simp only [List.length_cons]
        rw [hn3]
        omega

/-- The outer reaction loop appends rows keyed consecutively from the
starting counter over all messages. -/
theorem reactionsLoop_tables (env : Env) (hex : ∀ n, env.execFails n = false)
    (contactID : Int) :
    ∀ (msgs : List MessageInsertData) (counter : Int) (st : TxState),
      ∃ new,
        (reactionsLoop env contactID msgs counter st).1.tables =
            st.tables.append "chat_item_reactions" new
        ∧ colIds new "chat_item_reaction_id" = keysFrom counter (totalReactions msgs) := by
  intro msgs
  induction msgs with
  | nil =>
    intro counter st
    refine ⟨[], ?_, rfl⟩
    show st.tables = _
    rw [tablesAppend_reactions]
    simp
  | cons md rest ih =>
    intro counter st
    unfold reactionsLoop
    have hof := reactionsOfMsg_tables env hex contactID md md.message.reactions counter st
    have hok := reactionsOfMsg_ok env hex contactID md md.message.reactions counter st
    rcases hE : reactionsOfMsg env contactID md md.message.reactions counter st
      with ⟨st', counter', r⟩
    rw [hE] at hof hok
    cases r with
    | error e => simp at hok
    | ok u =>
      obtain ⟨new₁, h11, h12, h13⟩ := hof
      obtain ⟨new₂, h21, h22⟩ := ih counter' st'
      dsimp only at h11 h13
      refine ⟨new₁ ++ new₂, ?_, ?_⟩
      · rw [h21, h11, tablesAppend_append]
      · rw [colIds_append, h12, h22, h13]
        rw [show totalReactions (md :: rest) =
          md.message.reactions.length + totalReactions rest from by
            simp [totalReactions]]
        exact keysFrom_append counter _ _

theorem bulkInsertReactionsM_tables (env : Env) (hex : ∀ n, env.execFails n = false)
    (contactID : Int) (data : BulkInsertData) (st : TxState) :
    ∃ new,
      (bulkInsertReactionsM env contactID data st).1.tables =
          st.tables.append "chat_item_reactions" new
      ∧ colIds new "chat_item_reaction_id" =
          keysFrom (coalesceMax0 st.tables.chatItemReactions "chat_item_reaction_id" + 1)
            (totalReactions data.messages) := by
  unfold bulkInsertReactionsM
  dsimp only
  obtain ⟨new, h1, h2⟩ := reactionsLoop_tables env hex contactID data.messages
    (coalesceMax0 st.tables.chatItemReactions "chat_item_reaction_id" + 1)
    (st.logQuery "nextkey chat_item_reactions chat_item_reaction_id")
  exact ⟨new, by rw [h1, logQuery_tables], h2⟩

theorem chatItemsEffect_of_tables_eq {st st' : TxState} (h : st'.tables = st.tables) :
    ChatItemsEffect st st' [] := by
  refine ⟨by simp [h], ⟨[], by simp [h], by simp [colIds], by simp [colIds]⟩,
    ⟨[], by simp [h]⟩, ⟨[], by simp [h]⟩, by simp [h], by simp [h], by simp [h], by simp [h]⟩

theorem chatItemsEffect_comp {st st' st'' : TxState} {a b : List Row}
    (h₁ : ChatItemsEffect st st' a) (h₂ : ChatItemsEffect st' st'' b) :
    ChatItemsEffect st st'' (a ++ b) := by
  obtain ⟨hci₁, ⟨f₁, hf₁, hb₁, hp₁⟩, ⟨s₁, hs₁⟩, ⟨r₁, hr₁⟩, hm₁, hl₁, hd₁, hre₁⟩ := h₁
  obtain ⟨hci₂, ⟨f₂, hf₂, hb₂, hp₂⟩, ⟨s₂, hs₂⟩, ⟨r₂, hr₂⟩, hm₂, hl₂, hd₂, hre₂⟩ := h₂
  have hmono : coalesceMax0 st.tables.files "file_id" ≤
      coalesceMax0 st'.tables.files "file_id" := by
    rw [hf₁]
    exact coalesceMax0_append_ge _ _ _ hb₁
  refine ⟨by rw [hci₂, hci₁, List.append_assoc],
    ⟨f₁ ++ f₂, by rw [hf₂, hf₁, List.append_assoc], ?_, ?_⟩,
    ⟨s₁ ++ s₂, by rw [hs₂, hs₁, List.append_assoc]⟩,
    ⟨r₁ ++ r₂, by rw [hr₂, hr₁, List.append_assoc]⟩,
    by rw [hm₂, hm₁], by rw [hl₂, hl₁], by rw [hd₂, hd₁], by rw [hre₂, hre₁]⟩
  · intro k hk
    rw [colIds_append] at hk
    rcases List.mem_append.mp hk with h | h
    · exact hb₁ k h
    · exact lt_of_le_of_lt hmono (hb₂ k h)
  · rw [colIds_append]
    rw [List.pairwise_append]
    refine ⟨hp₁, hp₂, ?_⟩
    intro k₁ hk₁ k₂ hk₂
    have hub : k₁ ≤ coalesceMax0 st'.tables.files "file_id" := by
      apply le_coalesceMax0_of_mem
      rw [hf₁, colIds_append]
      exact List.mem_append.mpr (Or.inr hk₁)
    exact lt_of_le_of_lt hub (hb₂ k₂ hk₂)

theorem chatItemsEffect_execInsert_snd (env : Env) (hex : ∀ n, env.execFails n = false)
    (rows : List Row) (st : TxState) :
    ChatItemsEffect st (execInsert env "snd_files" rows st).1 [] := by
  rw [ChatItemsEffect, execInsert_tables_ok env hex, tablesAppend_sndFiles]
  exact ⟨by simp, ⟨[], by simp, by simp [colIds], by simp [colIds]⟩, ⟨rows, rfl⟩,
    ⟨[], by simp⟩, rfl, rfl, rfl, rfl⟩

theorem chatItemsEffect_execInsert_rcv (env : Env) (hex : ∀ n, env.execFails n = false)
    (rows : List Row) (st : TxState) :
    ChatItemsEffect st (execInsert env "rcv_files" rows st).1 [] := by
  rw [ChatItemsEffect, execInsert_tables_ok env hex, tablesAppend_rcvFiles]
  exact ⟨by simp, ⟨[], by simp, by simp [colIds], by simp [colIds]⟩, ⟨[], by simp⟩,
    ⟨rows, rfl⟩, rfl, rfl, rfl, rfl⟩

theorem chatItemsEffect_execInsert_chatItems (env : Env) (hex : ∀ n, env.execFails n = false)
    (rows : List Row) (st : TxState) :
    ChatItemsEffect st (execInsert env "chat_items" rows st).1 rows := by
  rw [ChatItemsEffect, execInsert_tables_ok env hex, tablesAppend_chatItems]
  exact ⟨rfl, ⟨[], by simp, by simp [colIds], by simp [colIds]⟩, ⟨[], by simp⟩,
    ⟨[], by simp⟩, rfl, rfl, rfl, rfl⟩

theorem chatItemsEffect_execInsert_files (env : Env) (hex : ∀ n, env.execFails n = false)
    (rows : List Row) (st : TxState)
    (hb : ∀ k ∈ colIds rows "file_id", coalesceMax0 st.tables.files "file_id" < k)
    (hp : (colIds rows "file_id").Pairwise (· < ·)) :
    ChatItemsEffect st (execInsert env "files" rows st).1 [] := by
  rw [ChatItemsEffect, execInsert_tables_ok env hex, tablesAppend_files]
  exact ⟨by simp, ⟨rows, rfl, hb, hp⟩, ⟨[], by simp⟩, ⟨[], by simp⟩, rfl, rfl, rfl, rfl⟩

theorem chatItemsEffect_insertSndFileM (env : Env) (hex : ∀ n, env.execFails n = false)
    (fileID : Int) (st : TxState) :
    ChatItemsEffect st (insertSndFileM env fileID st).1 [] := by
  unfold insertSndFileM
  dsimp only
  have h1 : ChatItemsEffect st
      ((getTemplateRowM st "snd_files" "file_id").2.logQuery
        "nextkey snd_files last_inline_msg_delivery_id") [] :=
    chatItemsEffect_of_tables_eq (by rw [logQuery_tables, getTemplateRowM_tables])
  simpa using chatItemsEffect_comp h1 (chatItemsEffect_execInsert_snd env hex _ _)

theorem chatItemsEffect_insertRcvFileM (env : Env) (hex : ∀ n, env.execFails n = false)
    (fileID : Int) (st : TxState) :
    ChatItemsEffect st (insertRcvFileM env fileID st).1 [] := by
  unfold insertRcvFileM
  dsimp only
  have h1 : ChatItemsEffect st (getTemplateRowM st "rcv_files" "file_id").2 [] :=
    chatItemsEffect_of_tables_eq (getTemplateRowM_tables st _ _)
  simpa using chatItemsEffect_comp h1 (chatItemsEffect_execInsert_rcv env hex _ _)

/-- The key column value of a single built row is the override's value when
present at all. -/
theorem colIds_single_zip (columns : List String) (o t : List (String × Value))
    (col : String) (v : Int) (hov : mapLookup o col = some (.int v)) :
    ∀ k ∈ colIds [columns.zip (buildRowValues o t columns)] col, k = v := by
  intro k hk
  simp only [colIds, List.filterMap_cons, List.filterMap_nil] at hk
  have hci : colInt (columns.zip (buildRowValues o t columns)) col =
      if col ∈ columns then some v else none := by
    by_cases hc : col ∈ columns
    · rw [if_pos hc]
      exact colInt_zip_buildRowValues columns o t col hc v hov
    · rw [if_neg hc]
      unfold colInt buildRowValues
      rw [mapLookup_zip_map, if_neg hc]
  rw [hci] at hk
  by_cases hc : col ∈ columns
  · rw [if_pos hc] at hk
    simpa using hk
  · rw [if_neg hc] at hk
    simp at hk

/-- One stored row contributes at most one key, so its key list is trivially
sorted. -/
theorem colIds_single_pairwise (r : Row) (col : String) :
    (colIds [r] col).Pairwise (· < ·) := by
  simp only [colIds, List.filterMap_cons, List.filterMap_nil]
  cases colInt r col <;> simp

/-- `insertFileAttachment` under reliable statement execution: it appends at
most one files row, keyed strictly above the current files max, some
transfer rows, and nothing else. -/
theorem chatItemsEffect_insertFileAttachmentM (env : Env)
    (hex : ∀ n, env.execFails n = false) (jsonDir simplexFilesDir : String) (contactID : Int)
    (attachment : UniversalAttachment) (chatItemID : Int) (isSent : Bool)
    (messageType : String) (st : TxState) :
    ChatItemsEffect st
      (insertFileAttachmentM env jsonDir simplexFilesDir contactID attachment chatItemID
        isSent messageType st).1 [] := by
  unfold insertFileAttachmentM
  dsimp only
  by_cases hfe : env.fileExists (pathJoin jsonDir attachment.url)
  case neg =>
    rw [if_pos (by simp [hfe])]
    exact chatItemsEffect_of_tables_eq rfl
  case pos =>
  rw [if_neg (by simp [hfe])]
  have hbase : ChatItemsEffect st
      ((getTemplateRowM st "files" "file_id").2.logQuery "nextkey files file_id") [] :=
    chatItemsEffect_of_tables_eq (by rw [logQuery_tables, getTemplateRowM_tables])
  by_cases hcp : env.copyOk (pathJoin jsonDir attachment.url)
  case neg =>
    rw [if_pos (by simp [hcp])]
    exact hbase
  case pos =>
  rw [if_neg (by simp [hcp])]
  split
  case h_1 stE e heq =>
    exfalso
    have := execInsert_ok env hex "files"
      [(env.schema "files").zip
        (buildRowValues
          (filesOverrideFields env contactID attachment chatItemID
            (coalesceMax0 (getTemplateRowM st "files" "file_id").2.tables.files "file_id" + 1)
            (if messageType = "video" then ("snd_stored", "local")
             else if messageType = "image" ∨ messageType = "voice" then
               ((if isSent then "snd_complete" else "rcv_complete"), "xftp")
             else ((if isSent then "snd_complete" else "rcv_complete"), "smp")).1
            (if messageType = "video" then ("snd_stored", "local")
             else if messageType = "image" ∨ messageType = "voice" then
               ((if isSent then "snd_complete" else "rcv_complete"), "xftp")
             else ((if isSent then "snd_complete" else "rcv_complete"), "smp")).2)
          (getTemplateRowM st "files" "file_id").1 (env.schema "files"))]
      ((getTemplateRowM st "files" "file_id").2.logQuery "nextkey files file_id")
    rw [heq] at this
    simp at this
  case h_2 st' u heq =>
    have hE : ChatItemsEffect st st' [] := by
      have hexec := chatItemsEffect_execInsert_files env hex
        [(env.schema "files").zip
          (buildRowValues
            (filesOverrideFields env contactID attachment chatItemID
              (coalesceMax0 (getTemplateRowM st "files" "file_id").2.tables.files "file_id" + 1)
              (if messageType = "video" then ("snd_stored", "local")
               else if messageType = "image" ∨ messageType = "voice" then
                 ((if isSent then "snd_complete" else "rcv_complete"), "xftp")
               else ((if isSent then "snd_complete" else "rcv_complete"), "smp")).1
              (if messageType = "video" then ("snd_stored", "local")
               else if messageType = "image" ∨ messageType = "voice" then
                 ((if isSent then "snd_complete" else "rcv_complete"), "xftp")
               else ((if isSent then "snd_complete" else "rcv_complete"), "smp")).2)
            (getTemplateRowM st "files" "file_id").1 (env.schema "files"))]
        ((getTemplateRowM st "files" "file_id").2.logQuery "nextkey files file_id")
        (by
          intro k hk
          have hkv := colIds_single_zip (env.schema "files")
            (filesOverrideFields env contactID attachment chatItemID
              (coalesceMax0 (getTemplateRowM st "files" "file_id").2.tables.files "file_id" + 1)
              (if messageType = "video" then ("snd_stored", "local")
               else if messageType = "image" ∨ messageType = "voice" then
                 ((if isSent then "snd_complete" else "rcv_complete"), "xftp")
               else ((if isSent then "snd_complete" else "rcv_complete"), "smp")).1
              (if messageType = "video" then ("snd_stored", "local")
               else if messageType = "image" ∨ messageType = "voice" then
                 ((if isSent then "snd_complete" else "rcv_complete"), "xftp")
               else ((if isSent then "snd_complete" else "rcv_complete"), "smp")).2)
            (getTemplateRowM st "files" "file_id").1 "file_id"
            (coalesceMax0 (getTemplateRowM st "files" "file_id").2.tables.files "file_id" + 1)
            rfl k hk
          rw [hkv, logQuery_tables]
          omega)
        (colIds_single_pairwise _ _)
      rw [heq] at hexec
      simpa using chatItemsEffect_comp hbase hexec
    by_cases hv : messageType = "video"
    case pos =>
      rw [if_neg (by simp [hv])]
      exact hE
    case neg =>
      rw [if_pos (by simp [hv])]
      split
      case h_1 st'' e heq₂ =>
        have hsnd : ChatItemsEffect st' st'' [] := by
          by_cases hs : isSent
          · rw [if_pos (by simp [hs])] at heq₂
            have := chatItemsEffect_insertSndFileM env hex
              (coalesceMax0 (getTemplateRowM st "files" "file_id").2.tables.files "file_id" + 1)
              st'
            rw [heq₂] at this
            exact this
          · rw [if_neg (by simp [hs])] at heq₂
            have := chatItemsEffect_insertRcvFileM env hex
              (coalesceMax0 (getTemplateRowM st "files" "file_id").2.tables.files "file_id" + 1)
              st'
            rw [heq₂] at this
            exact this
        simpa using chatItemsEffect_comp hE hsnd
      case h_2 st'' u₂ heq₂ =>
        have hsnd : ChatItemsEffect st' st'' [] := by
          by_cases hs : isSent
          · rw [if_pos (by simp [hs])] at heq₂
            have := chatItemsEffect_insertSndFileM env hex
              (coalesceMax0 (getTemplateRowM st "files" "file_id").2.tables.files "file_id" + 1)
              st'
            rw [heq₂] at this
            exact this
          · rw [if_neg (by simp [hs])] at heq₂
            have := chatItemsEffect_insertRcvFileM env hex
              (coalesceMax0 (getTemplateRowM st "files" "file_id").2.tables.files "file_id" + 1)
              st'
            rw [heq₂] at this
            exact this
        simpa using chatItemsEffect_comp hE hsnd

/-- The rows built for one chunk do not depend on the transaction state. -/
theorem chatItemsChunkRows_rows (env : Env) (jsonDir simplexFilesDir : String)
    (contactID : Int) (templateRow : List (String × Value)) (columns : List String) :
    ∀ (chunk : List MessageInsertData) (st : TxState),
      (chatItemsChunkRows env jsonDir simplexFilesDir contactID templateRow columns
          chunk st).2 =
        chunk.map (fun md =>
          columns.zip
            (buildRowValues (chatItemsOverrideFields env jsonDir contactID md) templateRow
              columns)) := by
  intro chunk
  induction chunk with
  | nil => intro st; rfl
  | cons md rest ih =>
    intro st
    unfold chatItemsChunkRows
    dsimp only
    rw [List.map_cons]
    congr 1
    exact ih _

theorem chatItemsEffect_chatItemRowStep (env : Env) (hex : ∀ n, env.execFails n = false)
    (jsonDir simplexFilesDir : String) (contactID : Int)
    (templateRow : List (String × Value)) (columns : List String)
    (md : MessageInsertData) (st : TxState) :
    ChatItemsEffect st
      (chatItemRowStep env jsonDir simplexFilesDir contactID templateRow columns md st).1 [] := by
  unfold chatItemRowStep
  dsimp only
  rcases hatt : md.message.attachments with _ | ⟨attachment, rest⟩
  · exact chatItemsEffect_of_tables_eq rfl
  · exact chatItemsEffect_insertFileAttachmentM env hex jsonDir simplexFilesDir contactID
      attachment md.chatItemID md.message.isSent md.message.messageType st

theorem chatItemsEffect_chatItemsChunkRows (env : Env) (hex : ∀ n, env.execFails n = false)
    (jsonDir simplexFilesDir : String) (contactID : Int)
    (templateRow : List (String × Value)) (columns : List String) :
    ∀ (chunk : List MessageInsertData) (st : TxState),
      ChatItemsEffect st
        (chatItemsChunkRows env jsonDir simplexFilesDir contactID templateRow columns
          chunk st).1 [] := by
  intro chunk
  induction chunk with
  | nil => intro st; exact chatItemsEffect_of_tables_eq rfl
  | cons md rest ih =>
    intro st
    unfold chatItemsChunkRows
    dsimp only
    simpa using chatItemsEffect_comp
      (chatItemsEffect_chatItemRowStep env hex jsonDir simplexFilesDir contactID templateRow
        columns md st)
      (ih _)

theorem chatItemsEffect_chatItemsChunkLoop (env : Env) (hex : ∀ n, env.execFails n = false)
    (jsonDir simplexFilesDir : String) (contactID : Int)
    (templateRow : List (String × Value)) (columns : List String) :
    ∀ (chunked : List (List MessageInsertData)) (st : TxState),
      ChatItemsEffect st
        (chatItemsChunkLoop env jsonDir simplexFilesDir contactID templateRow columns
          chunked st).1
        (chunked.flatten.map (fun md =>
          columns.zip
            (buildRowValues (chatItemsOverrideFields env jsonDir contactID md) templateRow
              columns))) := by
  intro chunked
  induction chunked with
  | nil => intro st; simpa using chatItemsEffect_of_tables_eq rfl
  | cons c cs ih =>
    intro st
    unfold chatItemsChunkLoop
    dsimp only
    have hrows := chatItemsEffect_chatItemsChunkRows env hex jsonDir simplexFilesDir contactID
      templateRow columns c st
    have hok := execInsert_ok env hex "chat_items"
      (chatItemsChunkRows env jsonDir simplexFilesDir contactID templateRow columns c st).2
      (chatItemsChunkRows env jsonDir simplexFilesDir contactID templateRow columns c st).1
    rcases hE : execInsert env "chat_items"
        (chatItemsChunkRows env jsonDir simplexFilesDir contactID templateRow columns c st).2
        (chatItemsChunkRows env jsonDir simplexFilesDir contactID templateRow columns c st).1
      with ⟨st', r⟩
    rw [hE] at hok
    cases r with
    | error e => simp at hok
    | ok u =>
      have hexec := chatItemsEffect_execInsert_chatItems env hex
        (chatItemsChunkRows env jsonDir simplexFilesDir contactID templateRow columns c st).2
        (chatItemsChunkRows env jsonDir simplexFilesDir contactID templateRow columns c st).1
      rw [hE] at hexec
      have hcomp := chatItemsEffect_comp (chatItemsEffect_comp hrows hexec) (ih st')
      rw [chatItemsChunkRows_rows] at hcomp
      simpa using hcomp

/-- The chat-items step under reliable statement execution: exactly the
batch's chat-item rows are appended, the files table grows by rows keyed
strictly above its start-of-step max, transfer rows grow, nothing else
changes. -/
theorem bulkInsertChatItemsM_effect (env : Env) (hex : ∀ n, env.execFails n = false)
    (jsonDir : String) (contactID : Int) (simplexFilesDir : String) (data : BulkInsertData)
    (st : TxState) :
    ChatItemsEffect st (bulkInsertChatItemsM env jsonDir contactID simplexFilesDir data st).1
      (data.messages.map (fun md =>
        (env.schema "chat_items").zip
          (buildRowValues (chatItemsOverrideFields env jsonDir contactID md)
            (getTemplateRowM st "chat_items" "chat_item_id").1 (env.schema "chat_items")))) := by
  unfold bulkInsertChatItemsM
  dsimp only
  have h1 : ChatItemsEffect st (getTemplateRowM st "chat_items" "chat_item_id").2 [] :=
    chatItemsEffect_of_tables_eq (getTemplateRowM_tables st _ _)
  have h2 := chatItemsEffect_chatItemsChunkLoop env hex jsonDir simplexFilesDir contactID
    (getTemplateRowM st "chat_items" "chat_item_id").1 (env.schema "chat_items")
    (chunks (calculateChunkSize (env.schema "chat_items").length 900) data.messages)
    (getTemplateRowM st "chat_items" "chat_item_id").2
  rw [chunks_flatten] at h2
  simpa using chatItemsEffect_comp h1 h2

/-! ## C6: per-table key allocation within a committed batch -/

theorem enum_map_snd_f {α β : Type} (l : List α) (f : α → β) :
    l.enum.map (fun p => f p.2) = l.map f := by
  rw [show (fun p : Nat × α => f p.2) = f ∘ Prod.snd from rfl, ← List.map_map,
    List.enum_map_snd]

/-- The `message_id` values `mkBulkData` allocates: `startMessageID + index`. -/
theorem mkBulkData_messageIDs (msgs : List UniversalMessage) (s c : Int) :
    (mkBulkData msgs s c).messages.map (fun md => md.messageID) = keysFrom s msgs.length := by
  unfold mkBulkData
  dsimp only
  rw [List.map_map]
  exact enum_map_index msgs (fun i => s + (i : Int))

/-- The `chat_item_id` values `mkBulkData` allocates: `maxChatItemID + 1 + index`. -/
theorem mkBulkData_chatItemIDs (msgs : List UniversalMessage) (s c : Int) :
    (mkBulkData msgs s c).messages.map (fun md => md.chatItemID) =
      keysFrom (c + 1) msgs.length := by
  unfold mkBulkData
  dsimp only
  rw [List.map_map]
  exact enum_map_index msgs (fun i => c + 1 + (i : Int))

theorem mkBulkData_length (msgs : List UniversalMessage) (s c : Int) :
    (mkBulkData msgs s c).messages.length = msgs.length := by
  unfold mkBulkData
  dsimp only
  rw [List.length_map, List.enum_length]

theorem totalReactions_mkBulkData (msgs : List UniversalMessage) (s c : Int) :
    totalReactions (mkBulkData msgs s c).messages =
      (msgs.map (fun m => m.reactions.length)).sum := by
  unfold totalReactions mkBulkData
  dsimp only
  rw [List.map_map]
  rw [show msgs.map (fun m => m.reactions.length) =
    msgs.enum.map (fun p => p.2.reactions.length) from (enum_map_snd_f msgs _).symm]
  rfl

/-- The `message_id` column of the rows the messages step builds. -/
theorem colIds_messages_rows {env : Env} {jsonDir : String}
    {tmpl : List (String × Value)} {msgs : List MessageInsertData}
    (hm : "message_id" ∈ env.schema "messages") :
    colIds (msgs.map (fun md => (env.schema "messages").zip
        (buildRowValues (messagesOverrideFields env jsonDir md) tmpl
          (env.schema "messages")))) "message_id" =
      msgs.map (fun md => md.messageID) :=
  colIds_map_rows msgs _ "message_id" (fun md => md.messageID)
    (fun md _ => colInt_zip_buildRowValues _ _ _ _ hm _ rfl)

/-- The `chat_item_id` column of the rows the chat-items step builds. -/
theorem colIds_chatItems_rows {env : Env} {jsonDir : String} {contactID : Int}
    {tmpl : List (String × Value)} {msgs : List MessageInsertData}
    (hci : "chat_item_id" ∈ env.schema "chat_items") :
    colIds (msgs.map (fun md => (env.schema "chat_items").zip
        (buildRowValues (chatItemsOverrideFields env jsonDir contactID md) tmpl
          (env.schema "chat_items")))) "chat_item_id" =
      msgs.map (fun md => md.chatItemID) :=
  colIds_map_rows msgs _ "chat_item_id" (fun md => md.chatItemID)
    (fun md _ => colInt_zip_buildRowValues _ _ _ _ hci _ rfl)

/-- The `rowid` column of the link rows: `nextRowID + index`. -/
theorem colIds_link_rows {env : Env} {tmpl : List (String × Value)} {nextRowID : Int}
    {msgs : List MessageInsertData} (hrw : "rowid" ∈ env.schema "chat_item_messages") :
    colIds (msgs.enum.map (fun p => (env.schema "chat_item_messages").zip
        (buildRowValues (chatItemMessagesOverrideFields nextRowID p.1 p.2) tmpl
          (env.schema "chat_item_messages")))) "rowid" =
      keysFrom nextRowID msgs.length :=
  (colIds_map_rows msgs.enum
    (fun p => (env.schema "chat_item_messages").zip
      (buildRowValues (chatItemMessagesOverrideFields nextRowID p.1 p.2) tmpl
        (env.schema "chat_item_messages")))
    "rowid" (fun p => nextRowID + (p.1 : Int))
    (fun p _ => colInt_zip_buildRowValues _ _ _ _ hrw _ rfl)).trans
    (enum_map_index msgs (fun i => nextRowID + (i : Int)))

/-- The `agent_msg_id` column of the delivery rows: `maxAgentMsgID + 1 + index`. -/
theorem colIds_deliveries_agent {env : Env} {tmpl : List (String × Value)} {maxAgent : Int}
    {msgs : List MessageInsertData} (hag : "agent_msg_id" ∈ env.schema "msg_deliveries") :
    colIds (msgs.enum.map (fun p => (env.schema "msg_deliveries").zip
        (buildRowValues (msgDeliveriesOverrideFields maxAgent p.1 p.2) tmpl
          (env.schema "msg_deliveries")))) "agent_msg_id" =
      keysFrom (maxAgent + 1) msgs.length :=
  (colIds_map_rows msgs.enum
    (fun p => (env.schema "msg_deliveries").zip
      (buildRowValues (msgDeliveriesOverrideFields maxAgent p.1 p.2) tmpl
        (env.schema "msg_deliveries")))
    "agent_msg_id" (fun p => maxAgent + 1 + (p.1 : Int))
    (fun p _ => colInt_zip_buildRowValues _ _ _ _ hag _ rfl)).trans
    (enum_map_index msgs (fun i => maxAgent + 1 + (i : Int)))

/-- The `msg_delivery_id` column of the delivery rows: a copy of the
allocated `message_id`, not an allocation from `MAX(msg_delivery_id)`. -/
theorem colIds_deliveries_mdid {env : Env} {tmpl : List (String × Value)} {maxAgent : Int}
    {msgs : List MessageInsertData} (hmd : "msg_delivery_id" ∈ env.schema "msg_deliveries") :
    colIds (msgs.enum.map (fun p => (env.schema "msg_deliveries").zip
        (buildRowValues (msgDeliveriesOverrideFields maxAgent p.1 p.2) tmpl
          (env.schema "msg_deliveries")))) "msg_delivery_id" =
      msgs.map (fun md => md.messageID) :=
  (colIds_map_rows msgs.enum
    (fun p => (env.schema "msg_deliveries").zip
      (buildRowValues (msgDeliveriesOverrideFields maxAgent p.1 p.2) tmpl
        (env.schema "msg_deliveries")))
    "msg_delivery_id" (fun p => p.2.messageID)
    (fun p _ => colInt_zip_buildRowValues _ _ _ _ hmd _ rfl)).trans
    (enum_map_snd_f msgs (fun md => md.messageID))

/-- C6 (amended): in every committed batch, the keys assigned to the
messages (`message_id`, consecutive from the batch start id), chat_items
(`chat_item_id`), chat_item_messages (`rowid`) and chat_item_reactions
(`chat_item_reaction_id`) tables, and `msg_deliveries.agent_msg_id`, are
consecutive integers starting one above the corresponding column's maximum
at batch start, hence strictly increasing and collision-free; `file_id`
keys are strictly increasing and strictly above the files maximum at batch
start.  But `msg_delivery_id` — the msg_deliveries primary key — is a copy
of the allocated `message_id`, not an allocation from
`MAX(msg_delivery_id)`, so it can collide with pre-existing delivery
rows. -/
theorem C6_surrogate_keys_amended (env : Env) (hex : ∀ n, env.execFails n = false)
    (db : Tables) (msgs : List UniversalMessage) (startID : Int) (jsonDir : String)
    (contactID : Int) (sfd : String) (t : Tables) (tr : List Event)
    (h : bulkInsertUniversalMessagesM env db msgs startID jsonDir contactID sfd = (.ok t, tr))
    (hm : "message_id" ∈ env.schema "messages")
    (hci : "chat_item_id" ∈ env.schema "chat_items")
    (hrw : "rowid" ∈ env.schema "chat_item_messages")
    (hmd : "msg_delivery_id" ∈ env.schema "msg_deliveries")
    (hag : "agent_msg_id" ∈ env.schema "msg_deliveries") :
    ∃ newM newCI newL newD newF newR,
      t.messages = db.messages ++ newM
      ∧ colIds newM "message_id" = keysFrom startID msgs.length
      ∧ t.chatItems = db.chatItems ++ newCI
      ∧ colIds newCI "chat_item_id" =
          keysFrom (coalesceMax0 db.chatItems "chat_item_id" + 1) msgs.length
      ∧ t.chatItemMessages = db.chatItemMessages ++ newL
      ∧ colIds newL "rowid" =
          keysFrom (coalesceMax0 db.chatItemMessages "rowid" + 1) msgs.length
      ∧ t.msgDeliveries = db.msgDeliveries ++ newD
      ∧ colIds newD "agent_msg_id" =
          keysFrom (coalesceMax0 db.msgDeliveries "agent_msg_id" + 1) msgs.length
      ∧ colIds newD "msg_delivery_id" = keysFrom startID msgs.length
      ∧ t.files = db.files ++ newF
      ∧ (∀ k ∈ colIds newF "file_id", coalesceMax0 db.files "file_id" < k)
      ∧ (colIds newF "file_id").Pairwise (· < ·)
      ∧ t.chatItemReactions = db.chatItemReactions ++ newR
      ∧ colIds newR "chat_item_reaction_id" =
          keysFrom (coalesceMax0 db.chatItemReactions "chat_item_reaction_id" + 1)
            ((msgs.map (fun m => m.reactions.length)).sum) := by
  unfold bulkInsertUniversalMessagesM at h
  dsimp only at h
  rcases hE1 : bulkInsertMessagesM env jsonDir
      (mkBulkData msgs startID (coalesceMax0 db.chatItems "chat_item_id"))
      { tables := db, trace := [.query "max chat_items chat_item_id"], execCount := 0 }
    with ⟨st1, r1⟩
  rw [hE1] at h
  cases r1 with
  | error e => simp at h
  | ok u1 =>
  dsimp only at h
  rcases hE2 : bulkInsertChatItemsM env jsonDir contactID sfd
      (mkBulkData msgs startID (coalesceMax0 db.chatItems "chat_item_id")) st1
    with ⟨st2, r2⟩
  rw [hE2] at h
  cases r2 with
  | error e => simp at h
  | ok u2 =>
  dsimp only at h
  rcases hE3 : bulkInsertChatItemMessagesM env
      (mkBulkData msgs startID (coalesceMax0 db.chatItems "chat_item_id")) st2
    with ⟨st3, r3⟩
  rw [hE3] at h
  cases r3 with
  | error e => simp at h
  | ok u3 =>
  dsimp only at h
  rcases hE4 : bulkInsertMsgDeliveriesM env
      (mkBulkData msgs startID (coalesceMax0 db.chatItems "chat_item_id")) st3
    with ⟨st4, r4⟩
  rw [hE4] at h
  cases r4 with
  | error e => simp at h
  | ok u4 =>
  dsimp only at h
  rcases hE5 : bulkInsertReactionsM env contactID
      (mkBulkData msgs startID (coalesceMax0 db.chatItems "chat_item_id")) st4
    with ⟨st5, r5⟩
  rw [hE5] at h
  cases r5 with
  | error e => simp at h
  | ok u5 =>
  dsimp only at h
  by_cases hc : env.commitFails
  · rw [if_pos hc] at h
    simp at h
  · rw [if_neg hc] at h
    injection h with h1 h2
    injection h1 with h1
    subst h1
    have ht1 := bulkInsertMessagesM_tables env hex jsonDir
      (mkBulkData msgs startID (coalesceMax0 db.chatItems "chat_item_id"))
      { tables := db, trace := [.query "max chat_items chat_item_id"], execCount := 0 }
    rw [hE1, tablesAppend_messages] at ht1
    dsimp only at ht1
    have ht2 := bulkInsertChatItemsM_effect env hex jsonDir contactID sfd
      (mkBulkData msgs startID (coalesceMax0 db.chatItems "chat_item_id")) st1
    rw [hE2] at ht2
    dsimp only at ht2
    obtain ⟨hci2, ⟨newF, hF, hFb, hFp⟩, ⟨newS, hS⟩, ⟨newR2, hR2⟩, hm2, hl2, hd2, hre2⟩ := ht2
    have ht3 := bulkInsertChatItemMessagesM_tables env hex
      (mkBulkData msgs startID (coalesceMax0 db.chatItems "chat_item_id")) st2
    rw [hE3, tablesAppend_chatItemMessages] at ht3
    dsimp only at ht3
    have ht4 := bulkInsertMsgDeliveriesM_tables env hex
      (mkBulkData msgs startID (coalesceMax0 db.chatItems "chat_item_id")) st3
    rw [hE4, tablesAppend_msgDeliveries] at ht4
    dsimp only at ht4
    have ht5 := bulkInsertReactionsM_tables env hex contactID
      (mkBulkData msgs startID (coalesceMax0 db.chatItems "chat_item_id")) st4
    rw [hE5] at ht5
    dsimp only at ht5
    obtain ⟨newRe, hre5, hkeys5⟩ := ht5
    rw [tablesAppend_reactions] at hre5
    have e1ci : st1.tables.chatItems = db.chatItems := by rw [ht1]
    have e1l : st1.tables.chatItemMessages = db.chatItemMessages := by rw [ht1]
    have e1d : st1.tables.msgDeliveries = db.msgDeliveries := by rw [ht1]
    have e1f : st1.tables.files = db.files := by rw [ht1]
    have e1re : st1.tables.chatItemReactions = db.chatItemReactions := by rw [ht1]
    have e2l : st2.tables.chatItemMessages = db.chatItemMessages := hl2.trans e1l
    have e2d : st2.tables.msgDeliveries = db.msgDeliveries := hd2.trans e1d
    have e2re : st2.tables.chatItemReactions = db.chatItemReactions := hre2.trans e1re
    have s3m : st3.tables.messages = st2.tables.messages := by rw [ht3]
    have s3ci : st3.tables.chatItems = st2.tables.chatItems := by rw [ht3]
    have s3f : st3.tables.files = st2.tables.files := by rw [ht3]
    have e3d : st3.tables.msgDeliveries = db.msgDeliveries := by rw [ht3]; exact e2d
    have e3re : st3.tables.chatItemReactions = db.chatItemReactions := by rw [ht3]; exact e2re
    have s4m : st4.tables.messages = st3.tables.messages := by rw [ht4]
    have s4ci : st4.tables.chatItems = st3.tables.chatItems := by rw [ht4]
    have s4l : st4.tables.chatItemMessages = st3.tables.chatItemMessages := by rw [ht4]
    have s4f : st4.tables.files = st3.tables.files := by rw [ht4]
    have e4re : st4.tables.chatItemReactions = db.chatItemReactions := by rw [ht4]; exact e3re
    have s5m : st5.tables.messages = st4.tables.messages := by rw [hre5]
    have s5ci : st5.tables.chatItems = st4.tables.chatItems := by rw [hre5]
    have s5l : st5.tables.chatItemMessages = st4.tables.chatItemMessages := by rw [hre5]
    have s5d : st5.tables.msgDeliveries = st4.tables.msgDeliveries := by rw [hre5]
    have s5f : st5.tables.files = st4.tables.files := by rw [hre5]
    rw [e1f] at hFb
    rw [e4re, totalReactions_mkBulkData] at hkeys5
    refine ⟨(mkBulkData msgs startID (coalesceMax0 db.chatItems "chat_item_id")).messages.map
        (fun md => (env.schema "messages").zip
          (buildRowValues (messagesOverrideFields env jsonDir md)
            (getTemplateRowM
              { tables := db, trace := [Event.query "max chat_items chat_item_id"],
                execCount := 0 } "messages" "message_id").1 (env.schema "messages"))),
      (mkBulkData msgs startID (coalesceMax0 db.chatItems "chat_item_id")).messages.map
        (fun md => (env.schema "chat_items").zip
          (buildRowValues (chatItemsOverrideFields env jsonDir contactID md)
            (getTemplateRowM st1 "chat_items" "chat_item_id").1 (env.schema "chat_items"))),
      (mkBulkData msgs startID (coalesceMax0 db.chatItems "chat_item_id")).messages.enum.map
        (fun p => (env.schema "chat_item_messages").zip
          (buildRowValues
            (chatItemMessagesOverrideFields (coalesceMax0 db.chatItemMessages "rowid" + 1)
              p.1 p.2)
            (getTemplateRowM st2 "chat_item_messages" "rowid").1
            (env.schema "chat_item_messages"))),
      (mkBulkData msgs startID (coalesceMax0 db.chatItems "chat_item_id")).messages.enum.map
        (fun p => (env.schema "msg_deliveries").zip
          (buildRowValues
            (msgDeliveriesOverrideFields (coalesceMax0 db.msgDeliveries "agent_msg_id")
              p.1 p.2)
            (getTemplateRowM st3 "msg_deliveries" "msg_delivery_id").1
            (env.schema "msg_deliveries"))),
      newF, newRe, ?_, ?_, ?_, ?_, ?_, ?_, ?_, ?_, ?_, ?_, ?_, ?_, ?_, ?_⟩
    · rw [s5m, s4m, s3m, hm2, ht1]
    · rw [colIds_messages_rows hm]
      exact mkBulkData_messageIDs msgs startID _
    · rw [s5ci, s4ci, s3ci, hci2, e1ci]
    · rw [colIds_chatItems_rows hci]
      exact mkBulkData_chatItemIDs msgs startID _
    · rw [s5l, s4l, ht3]
      dsimp only
      rw [e2l]
    · rw [colIds_link_rows hrw, mkBulkData_length]
    · rw [s5d, ht4]
      dsimp only
      rw [e3d]
    · rw [colIds_deliveries_agent hag, mkBulkData_length]
    · rw [colIds_deliveries_mdid hmd]
      exact mkBulkData_messageIDs msgs startID _
    · rw [s5f, s4f, s3f, hF, e1f]
    · exact hFb
    · exact hFp
    · rw [hre5]
      dsimp only
      rw [e4re]
    · exact hkeys5

/-- C6: counterexample to the original claim.  On a database whose
msg_deliveries table already holds a row keyed `msg_delivery_id = 5`, a run
importing one message assigns the new delivery row `msg_delivery_id = 1`
(a copy of the allocated `message_id`), which is NOT greater than the
pre-existing maximum 5 — the new row collides with the key range of the
pre-existing ones. -/
theorem C6_msg_delivery_collision_counterexample :
    coalesceMax0 dbC6.msgDeliveries "msg_delivery_id" = 5
    ∧ colIds ((runImport envOk dbC6 [msgText] "dir" 7 "sx" 500).msgDeliveries.drop
        dbC6.msgDeliveries.length) "msg_delivery_id" = [1]
    ∧ ¬ (∀ k ∈ colIds ((runImport envOk dbC6 [msgText] "dir" 7 "sx" 500).msgDeliveries.drop
          dbC6.msgDeliveries.length) "msg_delivery_id",
        coalesceMax0 dbC6.msgDeliveries "msg_delivery_id" < k) := by
  refine ⟨rfl, rfl, ?_⟩
  decide

/-- Witness for C6 (amended): the key-allocation pattern at a concrete
committed one-message batch on the empty database. -/
theorem C6_surrogate_keys_amended_witness :
    ∃ newM newCI newL newD newF newR,
      (runBatchVisible envOk emptyTables [msgText] 1 "dir" 7 "sx").messages =
          emptyTables.messages ++ newM
      ∧ colIds newM "message_id" = keysFrom 1 [msgText].length
      ∧ (runBatchVisible envOk emptyTables [msgText] 1 "dir" 7 "sx").chatItems =
          emptyTables.chatItems ++ newCI
      ∧ colIds newCI "chat_item_id" =
          keysFrom (coalesceMax0 emptyTables.chatItems "chat_item_id" + 1) [msgText].length
      ∧ (runBatchVisible envOk emptyTables [msgText] 1 "dir" 7 "sx").chatItemMessages =
          emptyTables.chatItemMessages ++ newL
      ∧ colIds newL "rowid" =
          keysFrom (coalesceMax0 emptyTables.chatItemMessages "rowid" + 1) [msgText].length
      ∧ (runBatchVisible envOk emptyTables [msgText] 1 "dir" 7 "sx").msgDeliveries =
          emptyTables.msgDeliveries ++ newD
      ∧ colIds newD "agent_msg_id" =
          keysFrom (coalesceMax0 emptyTables.msgDeliveries "agent_msg_id" + 1) [msgText].length
      ∧ colIds newD "msg_delivery_id" = keysFrom 1 [msgText].length
      ∧ (runBatchVisible envOk emptyTables [msgText] 1 "dir" 7 "sx").files =
          emptyTables.files ++ newF
      ∧ (∀ k ∈ colIds newF "file_id", coalesceMax0 emptyTables.files "file_id" < k)
      ∧ (colIds newF "file_id").Pairwise (· < ·)
      ∧ (runBatchVisible envOk emptyTables [msgText] 1 "dir" 7 "sx").chatItemReactions =
          emptyTables.chatItemReactions ++ newR
      ∧ colIds newR "chat_item_reaction_id" =
          keysFrom (coalesceMax0 emptyTables.chatItemReactions "chat_item_reaction_id" + 1)
            (([msgText].map (fun m => m.reactions.length)).sum) :=
  C6_surrogate_keys_amended envOk (fun _ => rfl) emptyTables [msgText] 1 "dir" 7 "sx"
    (runBatchVisible envOk emptyTables [msgText] 1 "dir" 7 "sx")
    (bulkInsertUniversalMessagesM envOk emptyTables [msgText] 1 "dir" 7 "sx").2
    (by rfl) (by decide) (by decide) (by decide) (by decide) (by decide)

end DiscordToSimplex
